import Mathlib

/-!
# VCNL4020C driver: a shallow embedding of `vcnl4020c.cpp` / `vcnl4020c.h`

The driver is a thin register-access layer over an I2C transport (`TwoWire`).
The embedding keeps the structure of the C++ code:

* the register map and bit masks of `vcnl4020c.h` are `Nat` constants;
* the transport is a record of transition functions over an arbitrary bus
  state `β` (so that theorems can quantify over every bus behaviour);
* the object is a record of its member variables plus the bus state;
* `uint8_t` / `uint16_t` values are `Nat` with explicit `% 256` / `% 65536`
  at the places where the C++ code converts;
* an out-parameter that is only assigned on success is an `Option`.

The field `writes` is a ghost trace: `writeRegs` appends one entry per
invocation, so that statements about "the writes issued" can be expressed.
-/

/-! ## Register map and bit masks (`vcnl4020c.h`) -/

abbrev VCNL4020C_ADDR : Int := 0x13

abbrev CMD_REG : Nat := 0x80
abbrev SELF_TIMED_EN : Nat := 0b00000001
abbrev SELF_TIMED_DIS : Nat := 0b11111110
abbrev PER_BIO_MEAS_EN : Nat := 0b00000010
abbrev PER_ALS_MEAS_EN : Nat := 0b00000100
abbrev START_BIO_MES : Nat := 0b00001000
abbrev START_ALS_MES : Nat := 0b00010000
abbrev PROD_ID : Nat := 0x81

abbrev BIO_SENS_RATE : Nat := 0x82
abbrev BIO_SENS_RATE_125 : Nat := 0b00000110
abbrev BIO_SENS_RATE_250 : Nat := 0b00000111

abbrev LED_CURRENT : Nat := 0x83

abbrev AMBIENT_LIGHT_PARAM : Nat := 0x84
abbrev CONT_CONV_ENA : Nat := 0b10000000
abbrev AMB_SENS_RATE_10 : Nat := 0b01110000
abbrev AUTO_COMP_ENA : Nat := 0b00001000
abbrev AVG_CONV_1 : Nat := 0b00000000
abbrev AVG_CONV_128 : Nat := 0b00000111

abbrev AMB_RESULT_H : Nat := 0x85
abbrev AMB_RESULT_L : Nat := 0x86
abbrev BIO_RESULT_H : Nat := 0x87
abbrev BIO_RESULT_L : Nat := 0x88

abbrev INT_CONTR : Nat := 0x89
abbrev INT_CNT_EXC_1 : Nat := 0b00000000
abbrev INT_CNT_EXC_128 : Nat := 0b11100000
abbrev INT_BS_RDY_ENA : Nat := 0b00001000
abbrev INT_ALS_RDY_ENA : Nat := 0b00000100
abbrev INT_THRES_ENA : Nat := 0b00000010
abbrev INT_THRES_BIO : Nat := 0b00000000
abbrev INT_THRES_ALS : Nat := 0b00000001

abbrev THRES_LOW_VAL_H : Nat := 0x8A
abbrev THRES_LOW_VAL_L : Nat := 0x8B
abbrev THRES_HIGH_VAL_H : Nat := 0x8C
abbrev THRES_HIGH_VAL_L : Nat := 0x8D

abbrev INT_STATUS : Nat := 0x8E
abbrev INT_BIO_RDY : Nat := 0b00001000
abbrev INT_ALS_RDY : Nat := 0b00000100
abbrev INT_TH_LOW_RDY : Nat := 0b00000010
abbrev INT_TH_HIGH_RDY : Nat := 0b00000001

abbrev BIO_SETTINGS : Nat := 0x8F
abbrev BIO_SETTINGS_VISHAY : Nat := 0b00000001

/-! ## The bus transport -/

/-- The Arduino `TwoWire` transport as the driver uses it, over a bus state `β`.
Every call takes the bus state and returns the new one, with the call's C++
return value where the driver looks at it (`write`: number of bytes accepted,
`endTransmission`: status, `requestFrom`: number of bytes received, `read`: the
`int` read). `NRF52_SERIES` is the compile-time switch of `initSensorDefault`. -/
structure TwoWire (β : Type) where
  begin : β → β
  setClock : β → Nat → β
  end_ : β → β
  beginTransmission : β → Int → β
  write : β → Nat → β × Nat
  endTransmission : β → Bool → β × Nat
  requestFrom : β → Int → Nat → β × Nat
  read : β → β × Int
  NRF52_SERIES : Bool

/-- One invocation of `writeRegs`: the register address, the bytes of the
buffer handed over, and the value `writeRegs` returned. -/
structure RegWrite where
  reg : Nat
  data : List Nat
  ok : Bool
deriving DecidableEq, Repr

/-- The member variables of class `VCNL4020C` that the code reads or writes,
the state of the bus behind `_i2c`, and the ghost trace `writes`.
`_sensorInt` is `none` for a `NULL` callback. -/
structure VCNL4020C (β : Type) where
  _i2c : β
  _addr : Int
  _lowThresh : Nat
  _highThresh : Nat
  regValue : Nat
  _intMeasurementBio : Bool
  _intMeasurementALS : Bool
  _intThreshold : Bool
  _sensorInt : Option Nat
  _intPin : Int
  writes : List RegWrite

namespace VCNL4020C

variable {β : Type}

/-- The object as the constructor and the member initialisers leave it. -/
def new (i2c : β) (addr : Int) : VCNL4020C β :=
  { _i2c := i2c, _addr := addr, _lowThresh := 0, _highThresh := 0, regValue := 0,
    _intMeasurementBio := false, _intMeasurementALS := false, _intThreshold := false,
    _sensorInt := none, _intPin := -1, writes := [] }

/-- The `for` loop of `writeRegs`: sends the bytes one by one; a `write` that
returns 0 ends the transmission and fails. -/
def writeLoop (W : TwoWire β) : List Nat → β → β × Bool
  | [], b => (b, true)
  | d :: ds, b =>
    let r := W.write b d
    if r.2 = 0 then ((W.endTransmission r.1 true).1, false)
    else writeLoop W ds r.1

/-- The bus side of `writeRegs(reg_addr, data, len)`, `len` being the length of
`data`. -/
def writeBus (W : TwoWire β) (addr : Int) (reg_addr : Nat) (data : List Nat) (b : β) : β × Bool :=
  let b0 := W.beginTransmission b addr
  let r := W.write b0 reg_addr
  if r.2 = 0 then ((W.endTransmission r.1 true).1, false)
  else
    let l := writeLoop W data r.1
    if l.2 then ((W.endTransmission l.1 true).1, true) else l

/-- Member function `VCNL4020C::writeRegs`, recording the invocation in the ghost trace. -/
def writeRegs (W : TwoWire β) (reg_addr : Nat) (data : List Nat) (s : VCNL4020C β) :
    VCNL4020C β × Bool :=
  let r := writeBus W s._addr reg_addr data s._i2c
  ({ s with _i2c := r.1, writes := s.writes ++ [⟨reg_addr, data, r.2⟩] }, r.2)

/-- The `for` loop of `readRegs`: `len` calls of `read`, each stored in a
`uint8_t`. -/
def readLoop (W : TwoWire β) : Nat → β → β × List Nat
  | 0, b => (b, [])
  | n + 1, b =>
    let r := W.read b
    let rest := readLoop W n r.1
    (rest.1, (r.2 % 256).toNat :: rest.2)

/-- Member function `VCNL4020C::readRegs`: `none` when it returns false (the buffer is then
untouched), `some bytes` when it returns true. -/
def readRegs (W : TwoWire β) (reg_addr : Nat) (len : Nat) (s : VCNL4020C β) :
    VCNL4020C β × Option (List Nat) :=
  let b0 := W.beginTransmission s._i2c s._addr
  let r := W.write b0 reg_addr
  if r.2 = 0 then ({ s with _i2c := (W.endTransmission r.1 true).1 }, none)
  else
    let e := W.endTransmission r.1 false
    if e.2 ≠ 0 then ({ s with _i2c := e.1 }, none)
    else
      let q := W.requestFrom e.1 s._addr len
      if q.2 = 0 then ({ s with _i2c := q.1 }, none)
      else
        let l := readLoop W len q.1
        ({ s with _i2c := l.1 }, some l.2)

/-- Member function `VCNL4020C::getIds`: `some (prodID, revID)` when it returns true. -/
def getIds (W : TwoWire β) (s : VCNL4020C β) : VCNL4020C β × Option (Nat × Nat) :=
  let r := readRegs W PROD_ID 1 s
  match r.2 with
  | none => (r.1, none)
  | some d =>
    let s1 := { r.1 with regValue := d.headD 0 }
    (s1, some ((s1.regValue >>> 4) % 256, s1.regValue &&& 0b00001111))

/-- Member function `VCNL4020C::setBioDataRate` (`dataRate` is a `uint8_t`). -/
def setBioDataRate (W : TwoWire β) (dataRate : Nat) (s : VCNL4020C β) : VCNL4020C β × Bool :=
  let dataRate := if dataRate > BIO_SENS_RATE_250 then BIO_SENS_RATE_250 else dataRate
  writeRegs W BIO_SENS_RATE [dataRate] s

/-- Member function `VCNL4020C::setLedCurrent` (`ledCurrent` is a `uint8_t`). -/
def setLedCurrent (W : TwoWire β) (ledCurrent : Nat) (s : VCNL4020C β) : VCNL4020C β × Bool :=
  let ledCurrent := if ledCurrent > 20 then 20 else ledCurrent
  writeRegs W LED_CURRENT [ledCurrent] s

/-- Member function `VCNL4020C::setAlsParam`. -/
def setAlsParam (W : TwoWire β) (dataRate avgConv : Nat) (offsetComp : Bool) (s : VCNL4020C β) :
    VCNL4020C β × Bool :=
  let s := { s with regValue := 0 }
  let dataRate := if dataRate > AMB_SENS_RATE_10 then AMB_SENS_RATE_10 else dataRate
  let avgConv := if avgConv > AVG_CONV_128 then AVG_CONV_128 else avgConv
  let s := if offsetComp then { s with regValue := s.regValue ||| AUTO_COMP_ENA } else s
  let s := { s with regValue := s.regValue ||| dataRate }
  let s := { s with regValue := s.regValue ||| avgConv }
  writeRegs W AMBIENT_LIGHT_PARAM [s.regValue] s

/-- Member function `VCNL4020C::getAlsValue`: the `uint16_t` it returns. The cast
`(uint16_t)((valHi) << 8)` and the conversion of the sum to the return type are
the two `% 65536`. -/
def getAlsValue (W : TwoWire β) (s : VCNL4020C β) : VCNL4020C β × Nat :=
  let valHi := 0
  let valLo := 0
  let r := readRegs W AMB_RESULT_L 1 s
  match r.2 with
  | none => (r.1, 0xFFFF)
  | some d =>
    let valLo := d.headD valLo
    let r := readRegs W AMB_RESULT_H 1 r.1
    match r.2 with
    | none => (r.1, 0xFFFF)
    | some d =>
      let valHi := d.headD valHi
      (r.1, ((valHi <<< 8) % 65536 + valLo) % 65536)

/-- Member function `VCNL4020C::getBioValue`, as `getAlsValue`. -/
def getBioValue (W : TwoWire β) (s : VCNL4020C β) : VCNL4020C β × Nat :=
  let valHi := 0
  let valLo := 0
  let r := readRegs W BIO_RESULT_L 1 s
  match r.2 with
  | none => (r.1, 0xFFFF)
  | some d =>
    let valLo := d.headD valLo
    let r := readRegs W BIO_RESULT_H 1 r.1
    match r.2 with
    | none => (r.1, 0xFFFF)
    | some d =>
      let valHi := d.headD valHi
      (r.1, ((valHi <<< 8) % 65536 + valLo) % 65536)

/-- Member function `VCNL4020C::setIntControl`. -/
def setIntControl (W : TwoWire β) (bioEna alsEna thresEna : Bool) (thresSel thresCount : Nat)
    (s : VCNL4020C β) : VCNL4020C β × Bool :=
  let s := { s with regValue := 0 }
  let s := if bioEna then { s with regValue := s.regValue ||| INT_BS_RDY_ENA } else s
  let s := if alsEna then { s with regValue := s.regValue ||| INT_ALS_RDY_ENA } else s
  let s := if thresEna then { s with regValue := s.regValue ||| INT_THRES_ENA } else s
  let s := if thresSel = INT_THRES_BIO then { s with regValue := s.regValue ||| INT_THRES_BIO }
    else { s with regValue := s.regValue ||| INT_THRES_ALS }
  let thresCount := if thresCount > INT_CNT_EXC_128 then INT_CNT_EXC_128 else thresCount
  let s := { s with regValue := s.regValue ||| thresCount }
  writeRegs W INT_CONTR [s.regValue] s

/-- Member function `VCNL4020C::setThresholdLow` (`threshold` is a `uint16_t`, `regValue` a
`uint8_t`). -/
def setThresholdLow (W : TwoWire β) (threshold : Nat) (s : VCNL4020C β) : VCNL4020C β × Bool :=
  let s := { s with regValue := threshold % 256 }
  let r := writeRegs W THRES_LOW_VAL_L [s.regValue] s
  if !r.2 then (r.1, false)
  else
    let s := { r.1 with regValue := (threshold >>> 8) % 256 }
    writeRegs W THRES_LOW_VAL_H [s.regValue] s

/-- Member function `VCNL4020C::setThresholdHigh`. -/
def setThresholdHigh (W : TwoWire β) (threshold : Nat) (s : VCNL4020C β) : VCNL4020C β × Bool :=
  let s := { s with regValue := threshold % 256 }
  let r := writeRegs W THRES_HIGH_VAL_L [s.regValue] s
  if !r.2 then (r.1, false)
  else
    let s := { r.1 with regValue := (threshold >>> 8) % 256 }
    writeRegs W THRES_HIGH_VAL_H [s.regValue] s

/-- What `getThresholds` hands back: its return value and the two pointees,
`none` for a pointee it did not assign. -/
structure Thresholds where
  ok : Bool
  thresholdHigh : Option Nat
  thresholdLow : Option Nat
deriving DecidableEq, Repr

/-- Member function `VCNL4020C::getThresholds`. -/
def getThresholds (W : TwoWire β) (s : VCNL4020C β) : VCNL4020C β × Thresholds :=
  let lowByte := 0
  let highByte := 0
  let r := readRegs W THRES_LOW_VAL_L 1 s
  match r.2 with
  | none => (r.1, ⟨false, none, none⟩)
  | some d =>
    let lowByte := d.headD lowByte
    let r := readRegs W THRES_LOW_VAL_H 1 r.1
    match r.2 with
    | none => (r.1, ⟨false, none, none⟩)
    | some d =>
      let highByte := d.headD highByte
      let thresholdLow := ((highByte <<< 8) + lowByte) % 65536
      let r := readRegs W THRES_HIGH_VAL_L 1 r.1
      match r.2 with
      | none => (r.1, ⟨false, none, some thresholdLow⟩)
      | some d =>
        let lowByte := d.headD lowByte
        let r := readRegs W THRES_HIGH_VAL_H 1 r.1
        match r.2 with
        | none => (r.1, ⟨false, none, some thresholdLow⟩)
        | some d =>
          let highByte := d.headD highByte
          let thresholdHigh := ((highByte <<< 8) + lowByte) % 65536
          (r.1, ⟨true, some thresholdHigh, some thresholdLow⟩)

/-- Member function `VCNL4020C::setBioSensMod`: the parameter `bioSensMod` is not used by the
body, which hands `&regValue` to `writeRegs`. -/
def setBioSensMod (W : TwoWire β) (_bioSensMod : Nat) (s : VCNL4020C β) : VCNL4020C β × Bool :=
  writeRegs W BIO_SETTINGS [s.regValue] s

/-- Member function `VCNL4020C::getBioSensMod`: `some modSetting` when it returns true. -/
def getBioSensMod (W : TwoWire β) (s : VCNL4020C β) : VCNL4020C β × Option Nat :=
  let r := readRegs W BIO_SETTINGS 1 s
  (r.1, r.2.map (fun d => d.headD 0))

/-- Member function `VCNL4020C::initSensorDefault` (`delay(10)` has no effect on the state). -/
def initSensorDefault (W : TwoWire β) (s : VCNL4020C β) : VCNL4020C β × Bool :=
  let s := { s with _i2c := W.begin s._i2c }
  let s := { s with _i2c := W.setClock s._i2c 800000 }
  let r := getIds W s
  match r.2 with
  | none => (r.1, false)
  | some (checkID, checkRev) =>
    let s := r.1
    if checkID ≠ 2 ∧ checkRev ≠ 1 then
      (if W.NRF52_SERIES then { s with _i2c := W.end_ s._i2c } else s, false)
    else
      let s := { s with regValue := 0 }
      let r := writeRegs W CMD_REG [s.regValue] s
      if !r.2 then (r.1, false) else
      let r := setBioDataRate W BIO_SENS_RATE_125 r.1
      if !r.2 then (r.1, false) else
      let r := setLedCurrent W 10 r.1
      if !r.2 then (r.1, false) else
      let r := setAlsParam W AMB_SENS_RATE_10 AVG_CONV_1 false r.1
      if !r.2 then (r.1, false) else
      let r := setIntControl W false false false 0 INT_CNT_EXC_1 r.1
      if !r.2 then (r.1, false) else
      let r := setThresholdLow W 0 r.1
      if !r.2 then (r.1, false) else
      let r := setThresholdHigh W 0 r.1
      if !r.2 then (r.1, false) else
      let r := setBioSensMod W BIO_SETTINGS_VISHAY r.1
      if !r.2 then (r.1, false) else
      (r.1, true)

/-- Member function `VCNL4020C::getIntControl`: `some intCntrl` when it returns
true. -/
def getIntControl (W : TwoWire β) (s : VCNL4020C β) : VCNL4020C β × Option Nat :=
  let r := readRegs W INT_CONTR 1 s
  (r.1, r.2.map (fun d => d.headD 0))

/-- Member function `VCNL4020C::checkInterrupts`: `some intStatus` when it
returns true. -/
def checkInterrupts (W : TwoWire β) (s : VCNL4020C β) : VCNL4020C β × Option Nat :=
  let r := readRegs W INT_STATUS 1 s
  (r.1, r.2.map (fun d => d.headD 0))

/-- Member function `VCNL4020C::setInterruptCb`. -/
def setInterruptCb (sensorInt : Option Nat) (intPin : Int) (s : VCNL4020C β) : VCNL4020C β :=
  { s with _sensorInt := sensorInt, _intPin := intPin }

/-- Member function `VCNL4020C::startSingle` (`pinMode` and `attachInterrupt`
have no effect on the modelled state). -/
def startSingle (W : TwoWire β) (bio als : Bool) (s : VCNL4020C β) : VCNL4020C β × Bool :=
  let s := { s with regValue := 0 }
  if s._sensorInt ≠ none ∧ s._intPin ≠ -1 then
    let s := if bio then
        { s with regValue := s.regValue ||| INT_BS_RDY_ENA, _intMeasurementBio := true } else s
    let s := if als then
        { s with regValue := s.regValue ||| INT_ALS_RDY_ENA, _intMeasurementALS := true } else s
    let s := if s._lowThresh ≠ 0 ∧ s._highThresh ≠ 0 then
        { s with regValue := s.regValue ||| INT_THRES_ENA, _intThreshold := true } else s
    writeRegs W INT_CONTR [s.regValue] s
  else
    let s := { s with regValue := 0 }
    let s := if bio then { s with regValue := s.regValue ||| START_BIO_MES } else s
    let s := if als then { s with regValue := s.regValue ||| START_ALS_MES } else s
    let s := { s with regValue := s.regValue &&& SELF_TIMED_DIS }
    writeRegs W CMD_REG [s.regValue] s

/-- Member function `VCNL4020C::startContinuous`. The value `r` is the outcome
of the interrupt block: the write to `INT_CONTR` when a callback and a pin are
bound, and success without any write otherwise. -/
def startContinuous (W : TwoWire β) (bio als : Bool) (s : VCNL4020C β) : VCNL4020C β × Bool :=
  let s := { s with regValue := 0 }
  let r := if s._sensorInt ≠ none ∧ s._intPin ≠ -1 then
      let s := if bio then
          { s with regValue := s.regValue ||| INT_BS_RDY_ENA, _intMeasurementBio := true } else s
      let s := if als then
          { s with regValue := s.regValue ||| INT_ALS_RDY_ENA, _intMeasurementALS := true } else s
      let s := if s._lowThresh ≠ 0 ∧ s._highThresh ≠ 0 then
          { s with regValue := s.regValue ||| INT_THRES_ENA, _intThreshold := true } else s
      writeRegs W INT_CONTR [s.regValue] s
    else (s, true)
  if !r.2 then (r.1, false)
  else
    let s := { r.1 with regValue := 0 }
    let s := if bio then { s with regValue := s.regValue ||| PER_BIO_MEAS_EN } else s
    let s := if als then { s with regValue := s.regValue ||| PER_ALS_MEAS_EN } else s
    let s := { s with regValue := s.regValue ||| SELF_TIMED_EN }
    writeRegs W CMD_REG [s.regValue] s

/-- Member function `VCNL4020C::stopContinuous` (`detachInterrupt` has no
effect on the modelled state). The value `r` is the outcome of the interrupt
block: the write to `INT_STATUS` when a callback and a pin are bound, and
success without any write otherwise. -/
def stopContinuous (W : TwoWire β) (s : VCNL4020C β) : VCNL4020C β × Bool :=
  let s := { s with regValue := 0 }
  let r := if s._sensorInt ≠ none ∧ s._intPin ≠ -1 then
      writeRegs W INT_STATUS [s.regValue] s
    else (s, true)
  if !r.2 then (r.1, false)
  else
    let s := { r.1 with _intMeasurementBio := false }
    let s := { s with _intMeasurementALS := false }
    let s := { s with _intThreshold := false }
    let s := { s with regValue := 0 }
    writeRegs W CMD_REG [s.regValue] s

/-- Member function `VCNL4020C::checkBioInt`. The results of the clearing write, of
`getIntControl` and of the write to `INT_CONTR` are not looked at; `regValue`
keeps its value when `getIntControl` fails. -/
def checkBioInt (W : TwoWire β) (s : VCNL4020C β) : VCNL4020C β × Bool :=
  let r := checkInterrupts W s
  match r.2 with
  | none => (r.1, false)
  | some intStatus =>
    let s := { r.1 with regValue := intStatus }
    if s.regValue &&& INT_BIO_RDY = INT_BIO_RDY then
      let s := { s with regValue := INT_BIO_RDY }
      let s := (writeRegs W INT_STATUS [s.regValue] s).1
      if s._intMeasurementBio then
        let r := getIntControl W s
        let s := match r.2 with
          | none => r.1
          | some intCntrl => { r.1 with regValue := intCntrl }
        let s := { s with regValue := s.regValue ||| INT_BIO_RDY }
        ((writeRegs W INT_CONTR [s.regValue] s).1, true)
      else (s, true)
    else (s, false)

/-- Member function `VCNL4020C::checkAlsInt`. The results of the clearing write, of
`getIntControl` and of the write to `INT_CONTR` are not looked at; `regValue`
keeps its value when `getIntControl` fails. -/
def checkAlsInt (W : TwoWire β) (s : VCNL4020C β) : VCNL4020C β × Bool :=
  let r := checkInterrupts W s
  match r.2 with
  | none => (r.1, false)
  | some intStatus =>
    let s := { r.1 with regValue := intStatus }
    if s.regValue &&& INT_ALS_RDY = INT_ALS_RDY then
      let s := { s with regValue := INT_ALS_RDY }
      let s := (writeRegs W INT_STATUS [s.regValue] s).1
      if s._intMeasurementALS then
        let r := getIntControl W s
        let s := match r.2 with
          | none => r.1
          | some intCntrl => { r.1 with regValue := intCntrl }
        let s := { s with regValue := s.regValue ||| INT_ALS_RDY }
        ((writeRegs W INT_CONTR [s.regValue] s).1, true)
      else (s, true)
    else (s, false)

/-- Member function `VCNL4020C::checkThreshLowInt`. The results of the clearing write, of
`getIntControl` and of the write to `INT_CONTR` are not looked at; `regValue`
keeps its value when `getIntControl` fails. -/
def checkThreshLowInt (W : TwoWire β) (s : VCNL4020C β) : VCNL4020C β × Bool :=
  let r := checkInterrupts W s
  match r.2 with
  | none => (r.1, false)
  | some intStatus =>
    let s := { r.1 with regValue := intStatus }
    if s.regValue &&& INT_TH_LOW_RDY = INT_TH_LOW_RDY then
      let s := { s with regValue := INT_TH_LOW_RDY }
      let s := (writeRegs W INT_STATUS [s.regValue] s).1
      if s._intThreshold then
        let r := getIntControl W s
        let s := match r.2 with
          | none => r.1
          | some intCntrl => { r.1 with regValue := intCntrl }
        let s := { s with regValue := s.regValue ||| INT_TH_LOW_RDY }
        ((writeRegs W INT_CONTR [s.regValue] s).1, true)
      else (s, true)
    else (s, false)

/-- Member function `VCNL4020C::checkThreshHighInt`. The results of the clearing write, of
`getIntControl` and of the write to `INT_CONTR` are not looked at; `regValue`
keeps its value when `getIntControl` fails. -/
def checkThreshHighInt (W : TwoWire β) (s : VCNL4020C β) : VCNL4020C β × Bool :=
  let r := checkInterrupts W s
  match r.2 with
  | none => (r.1, false)
  | some intStatus =>
    let s := { r.1 with regValue := intStatus }
    if s.regValue &&& INT_TH_HIGH_RDY = INT_TH_HIGH_RDY then
      let s := { s with regValue := INT_TH_HIGH_RDY }
      let s := (writeRegs W INT_STATUS [s.regValue] s).1
      if s._intThreshold then
        let r := getIntControl W s
        let s := match r.2 with
          | none => r.1
          | some intCntrl => { r.1 with regValue := intCntrl }
        let s := { s with regValue := s.regValue ||| INT_TH_HIGH_RDY }
        ((writeRegs W INT_CONTR [s.regValue] s).1, true)
      else (s, true)
    else (s, false)

end VCNL4020C


/-! ## Bus models

Two concrete transports, used to run the driver on concrete inputs and as the
"register file on which every transaction succeeds" of the round-trip claims.
They model the environment, not code of the driver. -/

/-- A device seen as a register file: `regs` are the register contents, `ptr`
the register pointer set by the first byte of a write transaction, `tx` the
bytes of the transaction in progress, `rx` the bytes fetched by `requestFrom`
and not read yet. -/
structure RegFile where
  regs : Nat → Nat
  ptr : Nat
  tx : List Nat
  rx : List Nat

/-- Stores the bytes `ds` in consecutive registers starting at `a`. -/
def RegFile.storeBytes (regs : Nat → Nat) : Nat → List Nat → Nat → Nat
  | _, [] => regs
  | a, d :: ds => RegFile.storeBytes (Function.update regs a d) (a + 1) ds

/-- A register file whose registers are all 0 except `reg`, which holds `v`. -/
def RegFile.single (reg v : Nat) : RegFile :=
  { regs := fun r => if r = reg then v else 0, ptr := 0, tx := [], rx := [] }

/-- A register file holding 0x1234 as ambient-light result and 0xBEEF as
biosensor result. -/
def resultRegs : RegFile :=
  { regs := fun r => if r = 0x85 then 0x12 else if r = 0x86 then 0x34
      else if r = 0x87 then 0xBE else if r = 0x88 then 0xEF else 0,
    ptr := 0, tx := [], rx := [] }

/-- A bus on which every transaction succeeds, in front of a register file:
a write transaction `reg, d0, d1, ..` sets the pointer to `reg` and stores the
data bytes from there on; `requestFrom` fetches `len` registers from the
pointer on. -/
def regFileBus : TwoWire RegFile where
  begin := fun f => f
  setClock := fun f _ => f
  end_ := fun f => f
  beginTransmission := fun f _ => { f with tx := [] }
  write := fun f b => ({ f with tx := f.tx ++ [b % 256] }, 1)
  endTransmission := fun f _ =>
    match f.tx with
    | [] => (f, 0)
    | r :: ds => ({ f with regs := RegFile.storeBytes f.regs r ds, ptr := r, tx := [] }, 0)
  requestFrom := fun f _ len =>
    ({ f with rx := (List.range len).map (fun i => f.regs (f.ptr + i)) }, len)
  read := fun f =>
    match f.rx with
    | [] => (f, -1)
    | b :: rest => ({ f with rx := rest }, (b : Int))
  NRF52_SERIES := false

/-- A bus that accepts a given number of bytes and refuses every byte after
them; the state is the number of bytes it still accepts. Every register reads
as 0x21. -/
def countBus : TwoWire Nat where
  begin := fun n => n
  setClock := fun n _ => n
  end_ := fun n => n
  beginTransmission := fun n _ => n
  write := fun n _ => if n = 0 then (0, 0) else (n - 1, 1)
  endTransmission := fun n _ => (n, 0)
  requestFrom := fun n _ len => (n, len)
  read := fun n => (n, 0x21)
  NRF52_SERIES := false

/-! ## Vocabulary for statements about the write trace -/

/-- The write sequence of a complete `initSensorDefault` run, as the code
issues it: register address and data bytes of each `writeRegs` call, in
order. -/
def initSequence : List (Nat × List Nat) :=
  [(CMD_REG, [0]), (BIO_SENS_RATE, [BIO_SENS_RATE_125]), (LED_CURRENT, [10]),
   (AMBIENT_LIGHT_PARAM, [AMB_SENS_RATE_10]), (INT_CONTR, [0]),
   (THRES_LOW_VAL_L, [0]), (THRES_LOW_VAL_H, [0]),
   (THRES_HIGH_VAL_L, [0]), (THRES_HIGH_VAL_H, [0]), (BIO_SETTINGS, [0])]

/-- The writes a call has added to the trace: `t` is the trace after the call,
`s` the trace before it. -/
def issued (t s : List RegWrite) : List RegWrite := t.drop s.length

/-- A successful `writeRegs` invocation of the request `q` (register, data). -/
def mkOk (q : Nat × List Nat) : RegWrite := ⟨q.1, q.2, true⟩

/-- A failed `writeRegs` invocation of the request `q`. -/
def mkFail (q : Nat × List Nat) : RegWrite := ⟨q.1, q.2, false⟩

/-- The outcome `r` of an operation started with trace `pre` follows the
abort-on-first-failure discipline for the write requests `reqs`: either it
returns true having issued all of `reqs`, each successfully, or it returns
false having issued the first `n` successfully and then request `n`, which
failed, and nothing after it. -/
def Aborting {β : Type} (reqs : List (Nat × List Nat)) (pre : List RegWrite)
    (r : VCNL4020C β × Bool) : Prop :=
  (r.2 = true ∧ r.1.writes = pre ++ reqs.map mkOk) ∨
  (r.2 = false ∧ ∃ n q, reqs.get? n = some q ∧
    r.1.writes = pre ++ ((reqs.take n).map mkOk ++ [mkFail q]))

/-! ## Vocabulary for the interrupt checks

The four `check*Int` member functions have the same body up to the status mask
and the soft flag they look at. `checkInt` is that common body, used to prove
facts about the four functions once; each of them is shown equal to its
instance of `checkInt` below. -/

/-- The common body of `checkBioInt`, `checkAlsInt`, `checkThreshLowInt` and
`checkThreshHighInt`, with the status mask `m` and the soft flag `armed` as
parameters. The mask is used three times, as in the four functions: to test the
status byte, as the byte written to `INT_STATUS`, and as the bit OR-ed into the
byte written to `INT_CONTR`. -/
def checkInt {β : Type} (W : TwoWire β) (m : Nat) (armed : VCNL4020C β → Bool)
    (s : VCNL4020C β) : VCNL4020C β × Bool :=
  let r := VCNL4020C.checkInterrupts W s
  match r.2 with
  | none => (r.1, false)
  | some intStatus =>
    let s := { r.1 with regValue := intStatus }
    if s.regValue &&& m = m then
      let s := { s with regValue := m }
      let s := (VCNL4020C.writeRegs W INT_STATUS [s.regValue] s).1
      if armed s then
        let r := VCNL4020C.getIntControl W s
        let s := match r.2 with
          | none => r.1
          | some intCntrl => { r.1 with regValue := intCntrl }
        let s := { s with regValue := s.regValue ||| m }
        ((VCNL4020C.writeRegs W INT_CONTR [s.regValue] s).1, true)
      else (s, true)
    else (s, false)

/-- The data bytes of the writes in `ws` that go to register `reg`. -/
def writesTo (reg : Nat) (ws : List RegWrite) : List (List Nat) :=
  (ws.filter (fun w => w.reg = reg)).map (fun w => w.data)

/-- Stores the bytes `ds` in consecutive registers starting at `a`, with the
interrupt-status register 0x8E behaving as `vcnl4020c.h` describes it: a status
bit "stays there unless it is cleared by writing a 1 in the corresponding bit".
A byte `d` written to 0x8E clears the bits of the register that are 1 in `d`
and leaves the others; every other register takes the byte written. -/
def RegFile.storeW1C (regs : Nat → Nat) : Nat → List Nat → Nat → Nat
  | _, [] => regs
  | a, d :: ds =>
    RegFile.storeW1C
      (Function.update regs a (if a = INT_STATUS then regs a &&& (0xFF ^^^ d) else d))
      (a + 1) ds

/-- A bus on which every transaction succeeds, in front of a register file
whose interrupt-status register is write-one-to-clear (`RegFile.storeW1C`);
otherwise as `regFileBus`. No new interrupt is asserted by the device. -/
def w1cBus : TwoWire RegFile where
  begin := fun f => f
  setClock := fun f _ => f
  end_ := fun f => f
  beginTransmission := fun f _ => { f with tx := [] }
  write := fun f b => ({ f with tx := f.tx ++ [b % 256] }, 1)
  endTransmission := fun f _ =>
    match f.tx with
    | [] => (f, 0)
    | r :: ds => ({ f with regs := RegFile.storeW1C f.regs r ds, ptr := r, tx := [] }, 0)
  requestFrom := fun f _ len =>
    ({ f with rx := (List.range len).map (fun i => f.regs (f.ptr + i)) }, len)
  read := fun f =>
    match f.rx with
    | [] => (f, -1)
    | b :: rest => ({ f with rx := rest }, (b : Int))
  NRF52_SERIES := false

/-- A register file with interrupt-status register 0x8E holding `st` and
interrupt-control register 0x89 holding `c`, every other register 0. -/
def RegFile.intRegs (st c : Nat) : RegFile :=
  { regs := fun r => if r = 0x8E then st else if r = 0x89 then c else 0,
    ptr := 0, tx := [], rx := [] }

/-- A fresh driver object whose three soft flags are set to `armed`. -/
def armedDriver {β : Type} (i2c : β) (armed : Bool) : VCNL4020C β :=
  { VCNL4020C.new i2c VCNL4020C_ADDR with
    _intMeasurementBio := armed, _intMeasurementALS := armed, _intThreshold := armed }

/-- A fresh driver object after `setInterruptCb(cb, 2)` with a callback that is
not `NULL`. -/
def boundDriver {β : Type} (i2c : β) : VCNL4020C β :=
  VCNL4020C.setInterruptCb (some 1) 2 (VCNL4020C.new i2c VCNL4020C_ADDR)

/-- A driver with a bound interrupt after `startSingle(true, true)` on a bus that
accepted exactly the two bytes of that call and accepts no further byte: the
soft flags `_intMeasurementBio` and `_intMeasurementALS` are set. -/
def startedDriver : VCNL4020C Nat :=
  (VCNL4020C.startSingle countBus true true (boundDriver 2)).1

/-! ## States the driver can be in

The private members `_lowThresh`, `_highThresh` and `_intThreshold` cannot be
set from outside the class. `Reachable W` collects the states an object can be
in over the transport `W`: the constructed object, and what any member function
makes of a reachable state, with the device and the bus free to change between
two calls. -/

/-- The state in which a check with status mask `m` that found its bit set
looks at its soft flag and reads `INT_CONTR`: after the status read and the
clearing write. -/
def afterClear {β : Type} (W : TwoWire β) (m : Nat) (s : VCNL4020C β) : VCNL4020C β :=
  (VCNL4020C.writeRegs W INT_STATUS [m]
    { (VCNL4020C.checkInterrupts W s).1 with regValue := m }).1

open VCNL4020C

section

variable {β : Type}

/-! ## Basic facts about the two transfer functions -/

theorem writeRegs_writes (W : TwoWire β) (reg : Nat) (data : List Nat) (s : VCNL4020C β) :
    (writeRegs W reg data s).1.writes = s.writes ++ [⟨reg, data, (writeRegs W reg data s).2⟩] :=
  rfl

theorem readRegs_writes (W : TwoWire β) (reg len : Nat) (s : VCNL4020C β) :
    (readRegs W reg len s).1.writes = s.writes := by
  unfold readRegs
  dsimp only
  split_ifs <;> rfl

theorem readLoop_one (W : TwoWire β) (b : β) :
    (readLoop W 1 b).2 = [((W.read b).2 % 256).toNat] := rfl

theorem toNat_emod_lt (x : Int) : (x % 256).toNat < 256 := by
  have h1 : 0 ≤ x % 256 := Int.emod_nonneg x (by decide)
  have h2 : x % 256 < 256 := Int.emod_lt_of_pos x (by decide)
  omega

/-- A single-byte `readRegs` either fails or delivers exactly one byte. -/
theorem readRegs_one (W : TwoWire β) (reg : Nat) (s : VCNL4020C β) :
    (readRegs W reg 1 s).2 = none ∨ ∃ b, b < 256 ∧ (readRegs W reg 1 s).2 = some [b] := by
  unfold readRegs
  dsimp only
  split_ifs
  · exact Or.inl rfl
  · exact Or.inl rfl
  · exact Or.inl rfl
  · exact Or.inr ⟨_, toNat_emod_lt _, by rw [readLoop_one]⟩

theorem readRegs_one_lt (W : TwoWire β) (reg : Nat) (s : VCNL4020C β) (b : Nat)
    (h : (readRegs W reg 1 s).2 = some [b]) : b < 256 := by
  rcases readRegs_one W reg s with h0 | ⟨c, hc, h1⟩
  · rw [h0] at h; cases h
  · rw [h1] at h
    have : c = b := by simpa using h
    omega

theorem word_of_bytes (hi lo : Nat) (hhi : hi < 256) (hlo : lo < 256) :
    ((hi <<< 8) % 65536 + lo) % 65536 = 256 * hi + lo ∧
    (hi <<< 8) ||| lo = 256 * hi + lo := by
  have h1 : hi <<< 8 = 2 ^ 8 * hi := by rw [Nat.shiftLeft_eq, Nat.mul_comm]
  have h3 : (hi <<< 8) ||| lo = 256 * hi + lo := by
    rw [h1]
    exact (Nat.mul_add_lt_is_or (i := 8) (by simpa using hlo) hi).symm
  refine ⟨?_, h3⟩
  rw [h1]; omega

theorem split_word (t : Nat) (ht : t < 65536) :
    ((((t >>> 8) % 256) <<< 8) + t % 256) % 65536 = t := by
  rw [Nat.shiftRight_eq_div_pow, Nat.shiftLeft_eq]
  omega

/-! ## C1: the 16-bit result getters -/

theorem getAlsValue_none_lo (W : TwoWire β) (s : VCNL4020C β)
    (h : (readRegs W AMB_RESULT_L 1 s).2 = none) : (getAlsValue W s).2 = 0xFFFF := by
  unfold getAlsValue
  simp only [h]

theorem getAlsValue_none_hi (W : TwoWire β) (s : VCNL4020C β)
    (h : (readRegs W AMB_RESULT_H 1 (readRegs W AMB_RESULT_L 1 s).1).2 = none) :
    (getAlsValue W s).2 = 0xFFFF := by
  unfold getAlsValue
  cases h1 : (readRegs W AMB_RESULT_L 1 s).2 with
  | none => simp only [h1]
  | some d => simp only [h1, h]

theorem getAlsValue_some (W : TwoWire β) (s : VCNL4020C β) (lo hi : Nat)
    (h1 : (readRegs W AMB_RESULT_L 1 s).2 = some [lo])
    (h2 : (readRegs W AMB_RESULT_H 1 (readRegs W AMB_RESULT_L 1 s).1).2 = some [hi]) :
    (getAlsValue W s).2 = ((hi <<< 8) % 65536 + lo) % 65536 := by
  unfold getAlsValue
  simp only [h1, h2, List.headD_cons]

theorem getBioValue_none_lo (W : TwoWire β) (s : VCNL4020C β)
    (h : (readRegs W BIO_RESULT_L 1 s).2 = none) : (getBioValue W s).2 = 0xFFFF := by
  unfold getBioValue
  simp only [h]

theorem getBioValue_none_hi (W : TwoWire β) (s : VCNL4020C β)
    (h : (readRegs W BIO_RESULT_H 1 (readRegs W BIO_RESULT_L 1 s).1).2 = none) :
    (getBioValue W s).2 = 0xFFFF := by
  unfold getBioValue
  cases h1 : (readRegs W BIO_RESULT_L 1 s).2 with
  | none => simp only [h1]
  | some d => simp only [h1, h]

theorem getBioValue_some (W : TwoWire β) (s : VCNL4020C β) (lo hi : Nat)
    (h1 : (readRegs W BIO_RESULT_L 1 s).2 = some [lo])
    (h2 : (readRegs W BIO_RESULT_H 1 (readRegs W BIO_RESULT_L 1 s).1).2 = some [hi]) :
    (getBioValue W s).2 = ((hi <<< 8) % 65536 + lo) % 65536 := by
  unfold getBioValue
  simp only [h1, h2, List.headD_cons]

/-- C1. For every bus `W` and every driver state `s`: `getAlsValue` reads
register 0x86 (low) and then 0x85 (high), `getBioValue` reads 0x88 (low) and
then 0x87 (high). A single-byte read either fails or delivers one byte below
256. If the low read fails, or the high read (made in the state the low read
left) fails, the getter returns 0xFFFF; if they deliver `lo` and `hi`, the
getter returns `(hi << 8) | lo`, which is `256 * hi + lo`, a 16-bit value. -/
theorem getAlsValue_getBioValue_spec (W : TwoWire β) (s : VCNL4020C β) :
    (∀ reg t, (readRegs W reg 1 t).2 = none ∨
        ∃ b, b < 256 ∧ (readRegs W reg 1 t).2 = some [b]) ∧
    (((readRegs W 0x86 1 s).2 = none ∨
        (readRegs W 0x85 1 (readRegs W 0x86 1 s).1).2 = none) →
      (getAlsValue W s).2 = 0xFFFF) ∧
    (∀ lo hi, (readRegs W 0x86 1 s).2 = some [lo] →
        (readRegs W 0x85 1 (readRegs W 0x86 1 s).1).2 = some [hi] →
      (getAlsValue W s).2 = (hi <<< 8) ||| lo ∧
      (getAlsValue W s).2 = 256 * hi + lo ∧ (getAlsValue W s).2 < 65536) ∧
    (((readRegs W 0x88 1 s).2 = none ∨
        (readRegs W 0x87 1 (readRegs W 0x88 1 s).1).2 = none) →
      (getBioValue W s).2 = 0xFFFF) ∧
    (∀ lo hi, (readRegs W 0x88 1 s).2 = some [lo] →
        (readRegs W 0x87 1 (readRegs W 0x88 1 s).1).2 = some [hi] →
      (getBioValue W s).2 = (hi <<< 8) ||| lo ∧
      (getBioValue W s).2 = 256 * hi + lo ∧ (getBioValue W s).2 < 65536) := by
  refine ⟨fun reg t => readRegs_one W reg t, ?_, ?_, ?_, ?_⟩
  · rintro (h | h)
    · exact getAlsValue_none_lo W s h
    · exact getAlsValue_none_hi W s h
  · intro lo hi h1 h2
    have hlo := readRegs_one_lt W _ _ lo h1
    have hhi := readRegs_one_lt W _ _ hi h2
    have hw := word_of_bytes hi lo hhi hlo
    have hv := getAlsValue_some W s lo hi h1 h2
    rw [hw.1] at hv
    refine ⟨by rw [hv, hw.2], hv, ?_⟩
    rw [hv]; omega
  · rintro (h | h)
    · exact getBioValue_none_lo W s h
    · exact getBioValue_none_hi W s h
  · intro lo hi h1 h2
    have hlo := readRegs_one_lt W _ _ lo h1
    have hhi := readRegs_one_lt W _ _ hi h2
    have hw := word_of_bytes hi lo hhi hlo
    have hv := getBioValue_some W s lo hi h1 h2
    rw [hw.1] at hv
    refine ⟨by rw [hv, hw.2], hv, ?_⟩
    rw [hv]; omega

/-- C1 at concrete inputs: on the register file `resultRegs` the getters return
0x1234 and 0xBEEF; on a bus that refuses the register address of the low read
(`getAlsValue`) or of the high read (`getBioValue`) they return 0xFFFF. -/
theorem getAlsValue_getBioValue_spec_witness :
    (getAlsValue regFileBus (new resultRegs VCNL4020C_ADDR)).2 = 0x1234 ∧
    (getBioValue regFileBus (new resultRegs VCNL4020C_ADDR)).2 = 0xBEEF ∧
    (getAlsValue countBus (new 0 VCNL4020C_ADDR)).2 = 0xFFFF ∧
    (getBioValue countBus (new 1 VCNL4020C_ADDR)).2 = 0xFFFF :=
  ⟨((getAlsValue_getBioValue_spec regFileBus (new resultRegs VCNL4020C_ADDR)).2.2.1
      0x34 0x12 (by decide) (by decide)).2.1,
   ((getAlsValue_getBioValue_spec regFileBus (new resultRegs VCNL4020C_ADDR)).2.2.2.2
      0xEF 0xBE (by decide) (by decide)).2.1,
   (getAlsValue_getBioValue_spec countBus (new 0 VCNL4020C_ADDR)).2.1 (Or.inl (by decide)),
   (getAlsValue_getBioValue_spec countBus (new 1 VCNL4020C_ADDR)).2.2.2.1 (Or.inr (by decide))⟩

/-! ## The register-file bus: every transfer succeeds -/

theorem regFile_writeRegs_ok (reg d : Nat) (s : VCNL4020C RegFile) :
    (writeRegs regFileBus reg [d] s).2 = true := by
  simp [writeRegs, writeBus, writeLoop, regFileBus]

theorem regFile_writeRegs_regs (reg d : Nat) (s : VCNL4020C RegFile) :
    (writeRegs regFileBus reg [d] s).1._i2c.regs =
      Function.update s._i2c.regs (reg % 256) (d % 256) := by
  simp [writeRegs, writeBus, writeLoop, regFileBus, RegFile.storeBytes]

theorem regFile_readRegs_val (reg : Nat) (s : VCNL4020C RegFile) :
    (readRegs regFileBus reg 1 s).2 = some [s._i2c.regs (reg % 256) % 256] := by
  simp [readRegs, readLoop, regFileBus, RegFile.storeBytes, List.range_succ]
  omega

theorem regFile_readRegs_regs (reg : Nat) (s : VCNL4020C RegFile) :
    (readRegs regFileBus reg 1 s).1._i2c.regs = s._i2c.regs := by
  simp [readRegs, readLoop, regFileBus, RegFile.storeBytes, List.range_succ]

/-! ## C2: threshold round trip -/

/-- C2. On the register-file bus (every transaction succeeds), for all 16-bit
values `lo` and `hi` and every driver state: `setThresholdLow(lo)` and
`setThresholdHigh(hi)` return true, and a following `getThresholds` returns
true with `thresholdHigh = hi` and `thresholdLow = lo`. -/
theorem threshold_round_trip (lo hi : Nat) (hlo : lo < 65536) (hhi : hi < 65536)
    (s : VCNL4020C RegFile) :
    (setThresholdLow regFileBus lo s).2 = true ∧
    (setThresholdHigh regFileBus hi (setThresholdLow regFileBus lo s).1).2 = true ∧
    (getThresholds regFileBus
        (setThresholdHigh regFileBus hi (setThresholdLow regFileBus lo s).1).1).2 =
      { ok := true, thresholdHigh := some hi, thresholdLow := some lo } := by
  have e1 := split_word lo hlo
  have e2 := split_word hi hhi
  refine ⟨?_, ?_, ?_⟩
  · simp [setThresholdLow, regFile_writeRegs_ok]
  · simp [setThresholdHigh, regFile_writeRegs_ok]
  · simp [getThresholds, setThresholdLow, setThresholdHigh, regFile_writeRegs_ok,
      regFile_readRegs_val, regFile_readRegs_regs, regFile_writeRegs_regs, Function.update,
      THRES_LOW_VAL_L, THRES_LOW_VAL_H, THRES_HIGH_VAL_L, THRES_HIGH_VAL_H]
    exact ⟨e2, e1⟩

/-- C2 at a concrete input: thresholds 0x0102 and 0xFFFE on a fresh driver over
an all-zero register file. -/
theorem threshold_round_trip_witness :
    (getThresholds regFileBus
        (setThresholdHigh regFileBus 0xFFFE
          (setThresholdLow regFileBus 0x0102 (new (RegFile.single 0 0) VCNL4020C_ADDR)).1).1).2 =
      { ok := true, thresholdHigh := some 0xFFFE, thresholdLow := some 0x0102 } :=
  (threshold_round_trip 0x0102 0xFFFE (by decide) (by decide)
    (new (RegFile.single 0 0) VCNL4020C_ADDR)).2.2

/-! ## Abort on first failure -/

theorem aborting_writeRegs (W : TwoWire β) (reg : Nat) (data : List Nat) (s : VCNL4020C β) :
    Aborting [(reg, data)] s.writes (writeRegs W reg data s) := by
  cases h : (writeRegs W reg data s).2 with
  | true =>
    left
    refine ⟨h, ?_⟩
    rw [writeRegs_writes, h]
    rfl
  | false =>
    right
    refine ⟨h, 0, (reg, data), rfl, ?_⟩
    rw [writeRegs_writes, h]
    rfl

/-- Sequencing: a step that aborts on failure, followed (only when it
succeeded) by a second such step. -/
theorem aborting_seq {a b : List (Nat × List Nat)} {pre : List RegWrite}
    {r1 r2 : VCNL4020C β × Bool} (h1 : Aborting a pre r1)
    (h2 : r1.2 = true → Aborting b r1.1.writes r2) :
    Aborting (a ++ b) pre (if (!r1.2) = true then (r1.1, false) else r2) := by
  rcases h1 with ⟨ok1, w1⟩ | ⟨ok1, n, q, hq, w1⟩
  · rw [ok1]
    simp only [Bool.not_true, Bool.false_eq_true, if_false]
    rcases h2 ok1 with ⟨ok2, w2⟩ | ⟨ok2, n, q, hq, w2⟩
    · left
      refine ⟨ok2, ?_⟩
      rw [w2, w1, List.map_append, List.append_assoc]
    · right
      refine ⟨ok2, a.length + n, q, ?_, ?_⟩
      · rw [List.get?_eq_getElem?, List.getElem?_append_right (Nat.le_add_right _ _)]
        simpa [List.get?_eq_getElem?] using hq
      · rw [w2, w1, List.take_append, List.map_append]
        simp [List.append_assoc]
  · rw [ok1]
    simp only [Bool.not_false, if_true]
    right
    have hn : n < a.length := by
      rw [List.get?_eq_getElem?] at hq
      exact (List.getElem?_eq_some_iff.mp hq).1
    refine ⟨rfl, n, q, ?_, ?_⟩
    · rw [List.get?_eq_getElem?, List.getElem?_append_left hn]
      simpa [List.get?_eq_getElem?] using hq
    · rw [w1, List.take_append_of_le_length (Nat.le_of_lt hn)]

theorem aborting_last {reqs : List (Nat × List Nat)} {pre : List RegWrite}
    {r : VCNL4020C β × Bool} (h : Aborting reqs pre r) :
    Aborting reqs pre (if (!r.2) = true then (r.1, false) else (r.1, true)) := by
  rcases h with ⟨ok, w⟩ | ⟨ok, n, q, hq, w⟩
  · left; rw [ok]; exact ⟨rfl, w⟩
  · right; rw [ok]; exact ⟨rfl, n, q, hq, w⟩

theorem aborting_setThresholdLow (W : TwoWire β) (t : Nat) (s : VCNL4020C β) :
    Aborting [(THRES_LOW_VAL_L, [t % 256]), (THRES_LOW_VAL_H, [(t >>> 8) % 256])] s.writes
      (setThresholdLow W t s) := by
  unfold setThresholdLow
  exact aborting_seq (a := [_]) (b := [_]) (aborting_writeRegs W _ _ _)
    (fun _ => aborting_writeRegs W _ _ _)

theorem aborting_setThresholdHigh (W : TwoWire β) (t : Nat) (s : VCNL4020C β) :
    Aborting [(THRES_HIGH_VAL_L, [t % 256]), (THRES_HIGH_VAL_H, [(t >>> 8) % 256])] s.writes
      (setThresholdHigh W t s) := by
  unfold setThresholdHigh
  exact aborting_seq (a := [_]) (b := [_]) (aborting_writeRegs W _ _ _)
    (fun _ => aborting_writeRegs W _ _ _)

/-- After a successful `setThresholdHigh(t)` the scratch byte `regValue` holds
the high byte of `t`. -/
theorem setThresholdHigh_regValue (W : TwoWire β) (t : Nat) (s : VCNL4020C β)
    (h : (setThresholdHigh W t s).2 = true) :
    (setThresholdHigh W t s).1.regValue = (t >>> 8) % 256 := by
  unfold setThresholdHigh at h ⊢
  dsimp only at h ⊢
  split_ifs at h ⊢
  rfl

theorem setAlsParam_default_eq (W : TwoWire β) (s : VCNL4020C β) :
    setAlsParam W AMB_SENS_RATE_10 AVG_CONV_1 false s =
      writeRegs W AMBIENT_LIGHT_PARAM [AMB_SENS_RATE_10]
        { s with regValue := AMB_SENS_RATE_10 } := by
  simp [setAlsParam]

theorem setIntControl_default_eq (W : TwoWire β) (s : VCNL4020C β) :
    setIntControl W false false false 0 INT_CNT_EXC_1 s =
      writeRegs W INT_CONTR [0] { s with regValue := 0 } := by
  simp [setIntControl]

theorem aborting_setAlsParam_default (W : TwoWire β) (s : VCNL4020C β) :
    Aborting [(AMBIENT_LIGHT_PARAM, [AMB_SENS_RATE_10])] s.writes
      (setAlsParam W AMB_SENS_RATE_10 AVG_CONV_1 false s) := by
  rw [setAlsParam_default_eq]
  exact aborting_writeRegs W _ _ _

theorem aborting_setIntControl_default (W : TwoWire β) (s : VCNL4020C β) :
    Aborting [(INT_CONTR, [0])] s.writes
      (setIntControl W false false false 0 INT_CNT_EXC_1 s) := by
  rw [setIntControl_default_eq]
  exact aborting_writeRegs W _ _ _

theorem getIds_writes (W : TwoWire β) (s : VCNL4020C β) :
    (getIds W s).1.writes = s.writes := by
  unfold getIds
  cases h : (readRegs W PROD_ID 1 s).2 with
  | none => simp only [h]; exact readRegs_writes W _ _ s
  | some d => simp only [h]; exact readRegs_writes W _ _ s

/-- When the ID read fails, `initSensorDefault` returns false without a write. -/
theorem initSensorDefault_id_fail (W : TwoWire β) (s : VCNL4020C β)
    (hid : (getIds W { s with _i2c := W.setClock (W.begin s._i2c) 800000 }).2 = none) :
    (initSensorDefault W s).2 = false ∧ (initSensorDefault W s).1.writes = s.writes := by
  have hg := getIds_writes W { s with _i2c := W.setClock (W.begin s._i2c) 800000 }
  unfold initSensorDefault
  dsimp only
  rw [hid]
  exact ⟨rfl, hg⟩

/-- When the product ID is not 2 and the revision is not 1, `initSensorDefault`
returns false without a write. -/
theorem initSensorDefault_mismatch (W : TwoWire β) (s : VCNL4020C β) (checkID checkRev : Nat)
    (hid : (getIds W { s with _i2c := W.setClock (W.begin s._i2c) 800000 }).2 =
      some (checkID, checkRev)) (hm : checkID ≠ 2 ∧ checkRev ≠ 1) :
    (initSensorDefault W s).2 = false ∧ (initSensorDefault W s).1.writes = s.writes := by
  have hg := getIds_writes W { s with _i2c := W.setClock (W.begin s._i2c) 800000 }
  unfold initSensorDefault
  dsimp only
  rw [hid]
  dsimp only
  rw [if_pos hm]
  cases W.NRF52_SERIES <;> exact ⟨rfl, hg⟩

/-- Past the identity check, `initSensorDefault` issues `initSequence` and
aborts on the first failing write. -/
theorem initSensorDefault_chain (W : TwoWire β) (s : VCNL4020C β) (checkID checkRev : Nat)
    (hid : (getIds W { s with _i2c := W.setClock (W.begin s._i2c) 800000 }).2 =
      some (checkID, checkRev)) (hm : ¬ (checkID ≠ 2 ∧ checkRev ≠ 1)) :
    Aborting initSequence s.writes (initSensorDefault W s) := by
  have hg := getIds_writes W { s with _i2c := W.setClock (W.begin s._i2c) 800000 }
  unfold initSensorDefault
  dsimp only
  rw [hid]
  dsimp only
  rw [if_neg hm]
  generalize (getIds W { s with _i2c := W.setClock (W.begin s._i2c) 800000 }).1 = t at hg ⊢
  rw [← hg]
  show Aborting initSequence ({ t with regValue := 0 } : VCNL4020C β).writes _
  generalize ({ t with regValue := 0 } : VCNL4020C β) = t0
  refine aborting_seq (a := [_]) (b := [_, _, _, _, _, _, _, _, _])
    (aborting_writeRegs W _ _ _) (fun _ => ?_)
  refine aborting_seq (a := [_]) (b := [_, _, _, _, _, _, _, _])
    (aborting_writeRegs W _ _ _) (fun _ => ?_)
  refine aborting_seq (a := [_]) (b := [_, _, _, _, _, _, _])
    (aborting_writeRegs W _ _ _) (fun _ => ?_)
  refine aborting_seq (a := [_]) (b := [_, _, _, _, _, _])
    (aborting_setAlsParam_default W _) (fun _ => ?_)
  refine aborting_seq (a := [_]) (b := [_, _, _, _, _])
    (aborting_setIntControl_default W _) (fun _ => ?_)
  refine aborting_seq (a := [_, _]) (b := [_, _, _])
    (aborting_setThresholdLow W 0 _) (fun _ => ?_)
  refine aborting_seq (a := [_, _]) (b := [_])
    (aborting_setThresholdHigh W 0 _) (fun h => ?_)
  refine aborting_last ?_
  have hr := setThresholdHigh_regValue W 0 _ h
  unfold setBioSensMod
  rw [hr]
  exact aborting_writeRegs W _ _ _

theorem issued_append (pre ws : List RegWrite) : issued (pre ++ ws) pre = ws := by
  simp [issued]

theorem issued_self (pre : List RegWrite) : issued pre pre = [] := by
  simp [issued]

theorem map_req_mkOk (l : List (Nat × List Nat)) :
    (l.map mkOk).map (fun w => (w.reg, w.data)) = l := by
  induction l with
  | nil => rfl
  | cons a l ih => rw [List.map_cons, List.map_cons, ih]; rfl

theorem mkOk_getElem_ok (l : List (Nat × List Nat)) (k : Nat) (hk : k < (l.map mkOk).length) :
    ((l.map mkOk)[k]).ok = true := by
  simp [mkOk]

/-- What `Aborting` says about the writes added to the trace: they extend the
trace, their requests are an initial segment of `reqs`, a failed write is the
last one and makes the result false, and when none failed the result is true
and all of `reqs` was issued. -/
theorem aborting_summary {reqs : List (Nat × List Nat)} {pre : List RegWrite}
    {r : VCNL4020C β × Bool} (h : Aborting reqs pre r) :
    r.1.writes = pre ++ issued r.1.writes pre ∧
    (issued r.1.writes pre).map (fun w => (w.reg, w.data)) <+: reqs ∧
    (∀ k (hk : k < (issued r.1.writes pre).length),
      ((issued r.1.writes pre)[k]).ok = false →
      r.2 = false ∧ (issued r.1.writes pre).length = k + 1) ∧
    ((∀ w ∈ issued r.1.writes pre, w.ok = true) →
      r.2 = true ∧ (issued r.1.writes pre).map (fun w => (w.reg, w.data)) = reqs) := by
  rcases h with ⟨ok, w⟩ | ⟨ok, n, q, hq, w⟩
  · rw [w, issued_append]
    refine ⟨rfl, ?_, ?_, ?_⟩
    · rw [map_req_mkOk]
    · intro k hk hf
      rw [mkOk_getElem_ok] at hf
      cases hf
    · intro _
      exact ⟨ok, map_req_mkOk reqs⟩
  · rw [w, issued_append]
    have hn : n < reqs.length := by
      rw [List.get?_eq_getElem?] at hq
      exact (List.getElem?_eq_some_iff.mp hq).1
    have hqn : reqs[n] = q := by
      rw [List.get?_eq_getElem?] at hq
      exact (List.getElem?_eq_some_iff.mp hq).2
    have hlen : ((reqs.take n).map mkOk).length = n := by
      simp [Nat.min_eq_left (Nat.le_of_lt hn)]
    refine ⟨rfl, ?_, ?_, ?_⟩
    · rw [List.map_append, map_req_mkOk]
      have : reqs.take (n + 1) = reqs.take n ++ [q] := by
        rw [List.take_succ, List.getElem?_eq_getElem hn, hqn]
        rfl
      show List.take n reqs ++ [q] <+: reqs
      rw [← this]
      exact List.take_prefix _ _
    · intro k hk hf
      refine ⟨ok, ?_⟩
      rw [List.length_append, hlen]
      by_cases hkn : k < n
      · rw [List.getElem_append_left (by rw [hlen]; exact hkn), mkOk_getElem_ok] at hf
        cases hf
      · rw [List.length_append, hlen] at hk
        simp only [List.length_singleton] at hk ⊢
        omega
    · intro hall
      have := hall (mkFail q) (by simp)
      simp [mkFail] at this

/-! ## C3: the identity check -/

/-- C3, the code at the failing inputs. The check of `initSensorDefault` is
`(checkID != 2) && (checkRev != 1)`, so it rejects a device only when both the
product ID and the revision are wrong. On a register file whose product-ID
register reads 0x20 (product ID 2, revision 0) and on one where it reads 0x31
(product ID 3, revision 1), the read succeeds, the identity does not match, and
`initSensorDefault` still issues all ten configuration writes and returns
true. -/
theorem initSensorDefault_accepts_identity_mismatch :
    (getIds regFileBus (new (RegFile.single 0x81 0x20) VCNL4020C_ADDR)).2 = some (2, 0) ∧
    (initSensorDefault regFileBus (new (RegFile.single 0x81 0x20) VCNL4020C_ADDR)).2 = true ∧
    (initSensorDefault regFileBus (new (RegFile.single 0x81 0x20) VCNL4020C_ADDR)).1.writes.map
      (fun w => (w.reg, w.data)) = initSequence ∧
    (getIds regFileBus (new (RegFile.single 0x81 0x31) VCNL4020C_ADDR)).2 = some (3, 1) ∧
    (initSensorDefault regFileBus (new (RegFile.single 0x81 0x31) VCNL4020C_ADDR)).2 = true ∧
    (initSensorDefault regFileBus (new (RegFile.single 0x81 0x31) VCNL4020C_ADDR)).1.writes.map
      (fun w => (w.reg, w.data)) = initSequence := by
  decide

/-! ## C4: abort on the first failure -/

/-- C4. For every bus `W` and every driver state `s`, with `issued` the writes
that `initSensorDefault` adds to the trace: the trace is only extended; the
requests issued (register, data) are an initial segment of `initSequence`; if
the write number `k` failed then `initSensorDefault` returns false and that
write is the last one issued; and if the ID read fails then it returns false
and issues no write at all. -/
theorem initSensorDefault_aborts (W : TwoWire β) (s : VCNL4020C β) :
    (initSensorDefault W s).1.writes =
      s.writes ++ issued (initSensorDefault W s).1.writes s.writes ∧
    (issued (initSensorDefault W s).1.writes s.writes).map (fun w => (w.reg, w.data))
      <+: initSequence ∧
    (∀ k (hk : k < (issued (initSensorDefault W s).1.writes s.writes).length),
      ((issued (initSensorDefault W s).1.writes s.writes)[k]).ok = false →
      (initSensorDefault W s).2 = false ∧
      (issued (initSensorDefault W s).1.writes s.writes).length = k + 1) ∧
    ((getIds W { s with _i2c := W.setClock (W.begin s._i2c) 800000 }).2 = none →
      (initSensorDefault W s).2 = false ∧
      issued (initSensorDefault W s).1.writes s.writes = []) := by
  cases hid : (getIds W { s with _i2c := W.setClock (W.begin s._i2c) 800000 }).2 with
  | none =>
    obtain ⟨h1, h2⟩ := initSensorDefault_id_fail W s hid
    rw [h2, issued_self]
    simp [h1]
  | some p =>
    obtain ⟨checkID, checkRev⟩ := p
    by_cases hm : checkID ≠ 2 ∧ checkRev ≠ 1
    · obtain ⟨h1, h2⟩ := initSensorDefault_mismatch W s checkID checkRev hid hm
      rw [h2, issued_self]
      simp
    · obtain ⟨h1, h2, h3, _⟩ := aborting_summary (initSensorDefault_chain W s checkID checkRev hid hm)
      exact ⟨h1, h2, h3, fun h => by cases h⟩

/-- C4 at concrete inputs. On a bus that accepts 8 bytes (the register address
of the ID read, three complete writes, and the register address of the fourth
write) the fourth write fails: `initSensorDefault` returns false and has issued
four writes. On a bus that accepts no byte the ID read fails: it returns false
and has issued none. -/
theorem initSensorDefault_aborts_witness :
    ((initSensorDefault countBus (new 8 VCNL4020C_ADDR)).2 = false ∧
      (issued (initSensorDefault countBus (new 8 VCNL4020C_ADDR)).1.writes
        (new 8 VCNL4020C_ADDR).writes).length = 3 + 1) ∧
    ((initSensorDefault countBus (new 0 VCNL4020C_ADDR)).2 = false ∧
      issued (initSensorDefault countBus (new 0 VCNL4020C_ADDR)).1.writes
        (new 0 VCNL4020C_ADDR).writes = []) :=
  ⟨(initSensorDefault_aborts countBus (new 8 VCNL4020C_ADDR)).2.2.1 3 (by decide) (by decide),
   (initSensorDefault_aborts countBus (new 0 VCNL4020C_ADDR)).2.2.2 (by decide)⟩

/-! ## C5: ID decoding and the default configuration sequence -/

theorem getIds_some (W : TwoWire β) (s : VCNL4020C β) (b : Nat)
    (h : (readRegs W PROD_ID 1 s).2 = some [b]) :
    (getIds W s).2 = some (b >>> 4, b &&& 0x0F) ∧ b >>> 4 = b / 16 ∧ b &&& 0x0F = b % 16 := by
  have hb := readRegs_one_lt W _ _ b h
  have e1 : b >>> 4 = b / 16 := by rw [Nat.shiftRight_eq_div_pow]
  have e2 : b &&& 0x0F = b % 16 := Nat.and_pow_two_sub_one_eq_mod b 4
  refine ⟨?_, e1, e2⟩
  unfold getIds
  simp only [h, List.headD_cons]
  have : (b >>> 4) % 256 = b >>> 4 := by rw [e1]; omega
  rw [this]

/-- C5. For every bus `W` and driver state `s`: when the read of the
product-ID register 0x81 delivers the byte `b`, `getIds` yields
`prodID = b >> 4` and `revID = b & 0x0F`. When the read made by
`initSensorDefault` delivers 0x21 (so product ID 2, revision 1) and every write
it issues succeeds, `initSensorDefault` returns true and the writes it issued
start with 0x00 to 0x80, 0x06 to 0x82, 10 to 0x83, 0x70 to 0x84, 0x00 to 0x89,
and 0x00 to 0x8B, 0x8A, 0x8D, 0x8C, in this order. -/
theorem getIds_decode_and_default_sequence (W : TwoWire β) (s : VCNL4020C β) :
    (∀ b, (readRegs W 0x81 1 s).2 = some [b] →
      (getIds W s).2 = some (b >>> 4, b &&& 0x0F) ∧ b >>> 4 = b / 16 ∧ b &&& 0x0F = b % 16) ∧
    ((readRegs W 0x81 1 { s with _i2c := W.setClock (W.begin s._i2c) 800000 }).2 = some [0x21] →
      (∀ w ∈ issued (initSensorDefault W s).1.writes s.writes, w.ok = true) →
      (getIds W { s with _i2c := W.setClock (W.begin s._i2c) 800000 }).2 = some (2, 1) ∧
      (initSensorDefault W s).2 = true ∧
      (initSensorDefault W s).1.writes =
        s.writes ++ issued (initSensorDefault W s).1.writes s.writes ∧
      [(0x80, [0x00]), (0x82, [0x06]), (0x83, [10]), (0x84, [0x70]), (0x89, [0x00]),
        (0x8B, [0x00]), (0x8A, [0x00]), (0x8D, [0x00]), (0x8C, [0x00])] <+:
        (issued (initSensorDefault W s).1.writes s.writes).map (fun w => (w.reg, w.data))) := by
  refine ⟨fun b h => getIds_some W s b h, ?_⟩
  intro hrd hall
  have hid : (getIds W { s with _i2c := W.setClock (W.begin s._i2c) 800000 }).2 = some (2, 1) :=
    (getIds_some W _ 0x21 hrd).1
  obtain ⟨h1, _, _, h4⟩ := aborting_summary (initSensorDefault_chain W s 2 1 hid (by simp))
  obtain ⟨hret, hseq⟩ := h4 hall
  refine ⟨hid, hret, h1, ?_⟩
  rw [hseq]
  exact ⟨[(0x8F, [0])], rfl⟩

/-- C5 at a concrete input: over a register file whose product-ID register
holds 0x21, `getIds` yields (2, 1) and `initSensorDefault` returns true. -/
theorem getIds_decode_and_default_sequence_witness :
    (getIds regFileBus (new (RegFile.single 0x81 0x21) VCNL4020C_ADDR)).2 = some (2, 1) ∧
    (initSensorDefault regFileBus (new (RegFile.single 0x81 0x21) VCNL4020C_ADDR)).2 = true :=
  ⟨((getIds_decode_and_default_sequence regFileBus
      (new (RegFile.single 0x81 0x21) VCNL4020C_ADDR)).1 0x21 (by decide)).1,
   ((getIds_decode_and_default_sequence regFileBus
      (new (RegFile.single 0x81 0x21) VCNL4020C_ADDR)).2 (by decide) (by decide)).2.1⟩

/-! ## C6 and C7: the biosensor modulation register -/

/-- C6, the code at the failing input. Over a register file whose product-ID
register holds 0x21, `initSensorDefault` succeeds, and its last write sends the
byte 0x00 to register 0x8F, not `BIO_SETTINGS_VISHAY` (0x01): `setBioSensMod`
sends the scratch byte `regValue`, which `setThresholdHigh(0)` left at 0. A
following `getBioSensMod` reads 0x00. -/
theorem initSensorDefault_bio_settings_write :
    (initSensorDefault regFileBus (new (RegFile.single 0x81 0x21) VCNL4020C_ADDR)).2 = true ∧
    (initSensorDefault regFileBus (new (RegFile.single 0x81 0x21) VCNL4020C_ADDR)).1.writes.getLast?
      = some { reg := 0x8F, data := [0x00], ok := true } ∧
    (getBioSensMod regFileBus
      (initSensorDefault regFileBus (new (RegFile.single 0x81 0x21) VCNL4020C_ADDR)).1).2
      = some 0x00 := by
  decide

/-- C7, the code at the failing input. On a fresh driver (scratch byte
`regValue` = 0) over a register file whose register 0x8F holds 0x01,
`setBioSensMod(0x05)` succeeds and sends the byte 0x00 to register 0x8F, not
its argument 0x05; a following `getBioSensMod` returns true with
`modSetting` = 0x00. -/
theorem setBioSensMod_ignores_argument :
    (setBioSensMod regFileBus 0x05 (new (RegFile.single 0x8F 0x01) VCNL4020C_ADDR)).2 = true ∧
    (setBioSensMod regFileBus 0x05 (new (RegFile.single 0x8F 0x01) VCNL4020C_ADDR)).1.writes
      = [{ reg := 0x8F, data := [0x00], ok := true }] ∧
    (getBioSensMod regFileBus
      (setBioSensMod regFileBus 0x05 (new (RegFile.single 0x8F 0x01) VCNL4020C_ADDR)).1).2
      = some 0x00 := by
  decide

/-! ## C8: the two clamping single-field setters -/

/-- C8. For every bus `W`, driver state `s` and input `v` (in particular every
8-bit one): `setLedCurrent(v)` is exactly the single register write of the byte
`min v 20` to register 0x83, and `setBioDataRate(v)` the single register write
of `min v 7` to register 0x82: each adds that one write to the trace and
returns what the write returned. In particular `setLedCurrent(25)` writes
0b00010100. -/
theorem setLedCurrent_setBioDataRate_clamp (W : TwoWire β) (s : VCNL4020C β) (v : Nat) :
    setLedCurrent W v s = writeRegs W 0x83 [min v 20] s ∧
    (setLedCurrent W v s).1.writes =
      s.writes ++ [{ reg := 0x83, data := [min v 20], ok := (setLedCurrent W v s).2 }] ∧
    setBioDataRate W v s = writeRegs W 0x82 [min v 7] s ∧
    (setBioDataRate W v s).1.writes =
      s.writes ++ [{ reg := 0x82, data := [min v 7], ok := (setBioDataRate W v s).2 }] ∧
    (setLedCurrent W 25 s).1.writes =
      s.writes ++ [{ reg := 0x83, data := [0b00010100], ok := (setLedCurrent W 25 s).2 }] := by
  have e1 : (if v > 20 then 20 else v) = min v 20 := by
    split_ifs <;> omega
  have e2 : (if v > BIO_SENS_RATE_250 then BIO_SENS_RATE_250 else v) = min v 7 := by
    show (if v > 7 then 7 else v) = min v 7
    split_ifs <;> omega
  have h1 : setLedCurrent W v s = writeRegs W 0x83 [min v 20] s := by
    unfold setLedCurrent
    simp only [e1]
  have h2 : setBioDataRate W v s = writeRegs W 0x82 [min v 7] s := by
    unfold setBioDataRate
    simp only [e2]
  refine ⟨h1, ?_, h2, ?_, ?_⟩
  · rw [h1]; exact writeRegs_writes W _ _ s
  · rw [h2]; exact writeRegs_writes W _ _ s
  · exact writeRegs_writes W _ _ s

/-! ## C9: `setAlsParam` -/

/-- The byte `setAlsParam` sends, in the order the code assembles it. -/
theorem setAlsParam_eq (W : TwoWire β) (s : VCNL4020C β) (d a : Nat) (c : Bool) :
    setAlsParam W d a c s =
      writeRegs W AMBIENT_LIGHT_PARAM
        [((if c then 0 ||| AUTO_COMP_ENA else 0) |||
            (if d > AMB_SENS_RATE_10 then AMB_SENS_RATE_10 else d)) |||
          (if a > AVG_CONV_128 then AVG_CONV_128 else a)]
        { s with regValue :=
          ((if c then 0 ||| AUTO_COMP_ENA else 0) |||
            (if d > AMB_SENS_RATE_10 then AMB_SENS_RATE_10 else d)) |||
          (if a > AVG_CONV_128 then AVG_CONV_128 else a) } := by
  cases c <;> rfl

theorem alsByte_packing (r a : Nat) (c : Bool) (hr : r < 8) (ha : a < 8) :
    ((if c then 0 ||| AUTO_COMP_ENA else 0) |||
        (if r <<< 4 > AMB_SENS_RATE_10 then AMB_SENS_RATE_10 else r <<< 4)) |||
        (if a > AVG_CONV_128 then AVG_CONV_128 else a)
      = (r <<< 4) ||| a ||| (if c then 0x08 else 0x00) ∧
    ((r <<< 4) ||| a ||| (if c then 0x08 else 0x00)) &&& 0x80 = 0 := by
  interval_cases r <;> interval_cases a <;> cases c <;> decide

/-- C9. For every bus `W`, driver state `s`, every `dataRate = r << 4` with
`r` in 0..7 (the eight `AMB_SENS_RATE_*` constants) and every `offsetComp`:
for `avgConv` in 0..7, `setAlsParam` adds exactly one write to the trace, of the
single byte `dataRate | avgConv | (offsetComp ? 0x08 : 0x00)` to register 0x84,
and bit 7 of that byte is clear; for `avgConv` above 7 the byte is the same
with 7 in place of `avgConv`. -/
theorem setAlsParam_packing (W : TwoWire β) (s : VCNL4020C β) (r avgConv : Nat)
    (offsetComp : Bool) (hr : r < 8) :
    (avgConv ≤ 7 →
      (setAlsParam W (r <<< 4) avgConv offsetComp s).1.writes = s.writes ++
        [{ reg := 0x84, data := [(r <<< 4) ||| avgConv ||| (if offsetComp then 0x08 else 0x00)],
           ok := (setAlsParam W (r <<< 4) avgConv offsetComp s).2 }] ∧
      ((r <<< 4) ||| avgConv ||| (if offsetComp then 0x08 else 0x00)) &&& 0x80 = 0) ∧
    (7 < avgConv →
      (setAlsParam W (r <<< 4) avgConv offsetComp s).1.writes = s.writes ++
        [{ reg := 0x84, data := [(r <<< 4) ||| 7 ||| (if offsetComp then 0x08 else 0x00)],
           ok := (setAlsParam W (r <<< 4) avgConv offsetComp s).2 }] ∧
      ((r <<< 4) ||| 7 ||| (if offsetComp then 0x08 else 0x00)) &&& 0x80 = 0) := by
  constructor
  · intro ha
    have hp := alsByte_packing r avgConv offsetComp hr (by omega)
    refine ⟨?_, hp.2⟩
    rw [setAlsParam_eq, writeRegs_writes, hp.1]
  · intro ha
    have hp := alsByte_packing r 7 offsetComp hr (by omega)
    refine ⟨?_, hp.2⟩
    have hc : (if avgConv > AVG_CONV_128 then AVG_CONV_128 else avgConv) = 7 := by
      show (if avgConv > 7 then 7 else avgConv) = 7
      rw [if_pos ha]
    have h7 : (if 7 > AVG_CONV_128 then AVG_CONV_128 else 7) = 7 := by decide
    rw [h7] at hp
    rw [setAlsParam_eq, writeRegs_writes, hc, hp.1]

/-- C9 at concrete inputs: `setAlsParam(AMB_SENS_RATE_3, AVG_CONV_32, true)`
writes 0x2D, and `setAlsParam(AMB_SENS_RATE_10, 200, false)` writes 0x77. -/
theorem setAlsParam_packing_witness :
    (setAlsParam regFileBus 0x20 5 true (new (RegFile.single 0 0) VCNL4020C_ADDR)).1.writes =
      [{ reg := 0x84, data := [0x2D], ok := true }] ∧
    (setAlsParam regFileBus 0x70 200 false (new (RegFile.single 0 0) VCNL4020C_ADDR)).1.writes =
      [{ reg := 0x84, data := [0x77], ok := true }] :=
  ⟨((setAlsParam_packing regFileBus (new (RegFile.single 0 0) VCNL4020C_ADDR) 2 5 true
      (by decide)).1 (by decide)).1,
   ((setAlsParam_packing regFileBus (new (RegFile.single 0 0) VCNL4020C_ADDR) 7 200 false
      (by decide)).2 (by decide)).1⟩

/-! ## C10: `setIntControl` -/

theorem setIntControl_eq (W : TwoWire β) (s : VCNL4020C β) (bioEna alsEna thresEna : Bool)
    (thresSel c : Nat) (hc : c < 8) :
    setIntControl W bioEna alsEna thresEna thresSel (c <<< 5) s =
      writeRegs W INT_CONTR
        [(if bioEna then 0x08 else 0) ||| (if alsEna then 0x04 else 0) |||
          (if thresEna then 0x02 else 0) ||| (if thresSel = 0 then 0x00 else 0x01) ||| (c <<< 5)]
        { s with regValue :=
          (if bioEna then 0x08 else 0) ||| (if alsEna then 0x04 else 0) |||
          (if thresEna then 0x02 else 0) ||| (if thresSel = 0 then 0x00 else 0x01) |||
          (c <<< 5) } := by
  by_cases h : thresSel = 0
  · subst h
    interval_cases c <;> cases bioEna <;> cases alsEna <;> cases thresEna <;>
      simp [setIntControl, INT_BS_RDY_ENA, INT_ALS_RDY_ENA, INT_THRES_ENA, INT_THRES_BIO,
        INT_THRES_ALS, INT_CNT_EXC_128]
  · interval_cases c <;> cases bioEna <;> cases alsEna <;> cases thresEna <;>
      simp [setIntControl, h, INT_BS_RDY_ENA, INT_ALS_RDY_ENA, INT_THRES_ENA, INT_THRES_BIO,
        INT_THRES_ALS, INT_CNT_EXC_128]

theorem intByte_bits (bioEna alsEna thresEna : Bool) (thresSel c : Nat) (hc : c < 8) :
    ((if bioEna then 0x08 else 0) ||| (if alsEna then 0x04 else 0) |||
      (if thresEna then 0x02 else 0) ||| (if thresSel = 0 then 0x00 else 0x01) ||| (c <<< 5))
      &&& 0x10 = 0 ∧
    (((if bioEna then 0x08 else 0) ||| (if alsEna then 0x04 else 0) |||
      (if thresEna then 0x02 else 0) ||| (if thresSel = 0 then 0x00 else 0x01) ||| (c <<< 5))
      &&& 0x01 = if thresSel = 0 then 0 else 1) := by
  by_cases h : thresSel = 0
  · simp only [if_pos h]
    interval_cases c <;> cases bioEna <;> cases alsEna <;> cases thresEna <;> decide
  · simp only [if_neg h]
    interval_cases c <;> cases bioEna <;> cases alsEna <;> cases thresEna <;> decide

/-- C10. For every bus `W`, driver state `s`, every `bioEna`, `alsEna`,
`thresEna`, every `thresSel` and every `thresCount = c << 5` with `c` in 0..7
(the eight `INT_CNT_EXC_*` constants): `setIntControl` adds exactly one write to
the trace, of the single byte `(bioEna ? 0x08 : 0) | (alsEna ? 0x04 : 0) |
(thresEna ? 0x02 : 0) | (thresSel == 0 ? 0x00 : 0x01) | thresCount` to register
0x89. The unused bit 4 of that byte is clear, and its bit 0 is set exactly when
`thresSel` is not 0 (`INT_THRES_BIO`), whatever other value it has. -/
theorem setIntControl_packing (W : TwoWire β) (s : VCNL4020C β) (bioEna alsEna thresEna : Bool)
    (thresSel c : Nat) (hc : c < 8) :
    (setIntControl W bioEna alsEna thresEna thresSel (c <<< 5) s).1.writes = s.writes ++
      [{ reg := 0x89,
         data := [(if bioEna then 0x08 else 0) ||| (if alsEna then 0x04 else 0) |||
           (if thresEna then 0x02 else 0) ||| (if thresSel = 0 then 0x00 else 0x01) ||| (c <<< 5)],
         ok := (setIntControl W bioEna alsEna thresEna thresSel (c <<< 5) s).2 }] ∧
    ((if bioEna then 0x08 else 0) ||| (if alsEna then 0x04 else 0) |||
      (if thresEna then 0x02 else 0) ||| (if thresSel = 0 then 0x00 else 0x01) ||| (c <<< 5))
      &&& 0x10 = 0 ∧
    (((if bioEna then 0x08 else 0) ||| (if alsEna then 0x04 else 0) |||
      (if thresEna then 0x02 else 0) ||| (if thresSel = 0 then 0x00 else 0x01) ||| (c <<< 5))
      &&& 0x01 = if thresSel = 0 then 0 else 1) := by
  refine ⟨?_, (intByte_bits bioEna alsEna thresEna thresSel c hc).1,
    (intByte_bits bioEna alsEna thresEna thresSel c hc).2⟩
  rw [setIntControl_eq W s bioEna alsEna thresEna thresSel c hc, writeRegs_writes]

/-- C10 at a concrete input: `setIntControl(true, false, true, 7, INT_CNT_EXC_4)`
writes 0x4B to register 0x89. -/
theorem setIntControl_packing_witness :
    (setIntControl regFileBus true false true 7 0x40
      (new (RegFile.single 0 0) VCNL4020C_ADDR)).1.writes =
      [{ reg := 0x89, data := [0x4B], ok := true }] :=
  (setIntControl_packing regFileBus (new (RegFile.single 0 0) VCNL4020C_ADDR) true false true 7 2
    (by decide)).1

/-! ## The interrupt checks -/

theorem checkBioInt_eq (W : TwoWire β) (s : VCNL4020C β) :
    checkBioInt W s = checkInt W INT_BIO_RDY (fun t => t._intMeasurementBio) s := rfl

theorem checkAlsInt_eq (W : TwoWire β) (s : VCNL4020C β) :
    checkAlsInt W s = checkInt W INT_ALS_RDY (fun t => t._intMeasurementALS) s := rfl

theorem checkThreshLowInt_eq (W : TwoWire β) (s : VCNL4020C β) :
    checkThreshLowInt W s = checkInt W INT_TH_LOW_RDY (fun t => t._intThreshold) s := rfl

theorem checkThreshHighInt_eq (W : TwoWire β) (s : VCNL4020C β) :
    checkThreshHighInt W s = checkInt W INT_TH_HIGH_RDY (fun t => t._intThreshold) s := rfl

theorem checkInterrupts_val (W : TwoWire β) (s : VCNL4020C β) :
    (checkInterrupts W s).2 = ((readRegs W INT_STATUS 1 s).2).map (fun d => d.headD 0) := rfl

theorem checkInterrupts_writes (W : TwoWire β) (s : VCNL4020C β) :
    (checkInterrupts W s).1.writes = s.writes := readRegs_writes W _ _ s

theorem getIntControl_writes (W : TwoWire β) (s : VCNL4020C β) :
    (getIntControl W s).1.writes = s.writes := readRegs_writes W _ _ s

/-- The result of a check is decided by the status read alone. -/
theorem checkInt_result (W : TwoWire β) (m : Nat) (armed : VCNL4020C β → Bool)
    (s : VCNL4020C β) :
    (checkInt W m armed s).2 = true ↔
      ∃ b, (readRegs W INT_STATUS 1 s).2 = some [b] ∧ b &&& m = m := by
  unfold checkInt
  dsimp only
  rw [checkInterrupts_val]
  rcases readRegs_one W INT_STATUS s with h | ⟨b, _, h⟩
  · rw [h]
    simp
  · rw [h]
    simp only [Option.map_some', List.headD_cons]
    split_ifs with h1 h2
    · simp [h1]
    · simp [h1]
    · simp [h1]

theorem readInto_writes (r : VCNL4020C β × Option Nat) :
    (match r.2 with
      | none => r.1
      | some intCntrl => { r.1 with regValue := intCntrl }).writes = r.1.writes := by
  cases r.2 <;> rfl

/-- The writes of a check that returns true: the clearing write of the mask to
`INT_STATUS`, followed by at most one write, to `INT_CONTR`. -/
theorem checkInt_trace (W : TwoWire β) (m : Nat) (armed : VCNL4020C β → Bool)
    (s : VCNL4020C β) (h : (checkInt W m armed s).2 = true) :
    ∃ ok1, issued (checkInt W m armed s).1.writes s.writes = [⟨INT_STATUS, [m], ok1⟩] ∨
      ∃ x ok2, issued (checkInt W m armed s).1.writes s.writes =
        [⟨INT_STATUS, [m], ok1⟩, ⟨INT_CONTR, [x], ok2⟩] := by
  unfold checkInt at h ⊢
  have hw := checkInterrupts_writes W s
  generalize checkInterrupts W s = r at h hw ⊢
  obtain ⟨s0, o⟩ := r
  cases o with
  | none => simp at h
  | some v =>
    dsimp only at h hw ⊢
    by_cases h1 : v &&& m = m
    · rw [if_pos h1] at h ⊢
      have hw1 := writeRegs_writes W INT_STATUS [m] ({ s0 with regValue := m })
      generalize writeRegs W INT_STATUS [m] ({ s0 with regValue := m }) = r1 at h hw1 ⊢
      obtain ⟨s1, ok1⟩ := r1
      dsimp only at hw1 h ⊢
      refine ⟨ok1, ?_⟩
      by_cases h2 : armed s1 = true
      · rw [if_pos h2]
        right
        have hw2 := getIntControl_writes W s1
        generalize getIntControl W s1 = r2 at hw2 ⊢
        obtain ⟨s2, o2⟩ := r2
        cases o2 with
        | none =>
          dsimp only at hw2 ⊢
          refine ⟨?_, ?_, ?_⟩
          rotate_left 2
          rw [writeRegs_writes]
          dsimp only
          rw [hw2, hw1, hw, List.append_assoc, issued_append]
          exact rfl
        | some c =>
          dsimp only at hw2 ⊢
          refine ⟨?_, ?_, ?_⟩
          rotate_left 2
          rw [writeRegs_writes]
          dsimp only
          rw [hw2, hw1, hw, List.append_assoc, issued_append]
          exact rfl
      · rw [if_neg h2]
        left
        dsimp only
        rw [hw1, hw, issued_append]
    · rw [if_neg h1] at h
      simp at h

theorem checkInt_status_writes (W : TwoWire β) (m : Nat) (armed : VCNL4020C β → Bool)
    (s : VCNL4020C β) (h : (checkInt W m armed s).2 = true) :
    writesTo 0x8E (issued (checkInt W m armed s).1.writes s.writes) = [[m]] := by
  obtain ⟨ok1, h1 | ⟨x, ok2, h1⟩⟩ := checkInt_trace W m armed s h
  · rw [h1]; simp [writesTo, INT_STATUS]
  · rw [h1]; simp [writesTo, INT_STATUS, INT_CONTR]

/-! ## The write-one-to-clear register file -/

theorem w1c_writeRegs_regs (reg d : Nat) (s : VCNL4020C RegFile) :
    (writeRegs w1cBus reg [d] s).1._i2c.regs =
      Function.update s._i2c.regs (reg % 256)
        (if reg % 256 = INT_STATUS then s._i2c.regs (reg % 256) &&& (0xFF ^^^ (d % 256))
          else d % 256) := by
  simp [writeRegs, writeBus, writeLoop, w1cBus, RegFile.storeW1C]

theorem w1c_readRegs_val (reg : Nat) (s : VCNL4020C RegFile) :
    (readRegs w1cBus reg 1 s).2 = some [s._i2c.regs (reg % 256) % 256] := by
  simp [readRegs, readLoop, w1cBus, RegFile.storeW1C, List.range_succ]
  omega

theorem w1c_readRegs_regs (reg : Nat) (s : VCNL4020C RegFile) :
    (readRegs w1cBus reg 1 s).1._i2c.regs = s._i2c.regs := by
  simp [readRegs, readLoop, w1cBus, RegFile.storeW1C, List.range_succ]

theorem readInto_i2c {β : Type} (r : VCNL4020C β × Option Nat) :
    (match r.2 with
      | none => r.1
      | some intCntrl => { r.1 with regValue := intCntrl })._i2c = r.1._i2c := by
  cases r.2 <;> rfl

/-- On the write-one-to-clear register file, a check that returns true leaves
the status register with the bits of the mask cleared and the others as they
were. -/
theorem w1c_checkInt_status (m : Nat) (armed : VCNL4020C RegFile → Bool)
    (s : VCNL4020C RegFile) (h : (checkInt w1cBus m armed s).2 = true) :
    (checkInt w1cBus m armed s).1._i2c.regs INT_STATUS =
      s._i2c.regs INT_STATUS &&& (0xFF ^^^ (m % 256)) := by
  unfold checkInt at h ⊢
  have hw : (checkInterrupts w1cBus s).1._i2c.regs = s._i2c.regs := w1c_readRegs_regs _ s
  generalize checkInterrupts w1cBus s = r at h hw ⊢
  obtain ⟨s0, o⟩ := r
  cases o with
  | none => simp at h
  | some v =>
    dsimp only at h hw ⊢
    by_cases h1 : v &&& m = m
    · rw [if_pos h1] at h ⊢
      have hw1 := w1c_writeRegs_regs INT_STATUS m ({ s0 with regValue := m })
      generalize writeRegs w1cBus INT_STATUS [m] ({ s0 with regValue := m }) = r1 at h hw1 ⊢
      obtain ⟨s1, ok1⟩ := r1
      dsimp only at hw1 h ⊢
      have hs1 : s1._i2c.regs INT_STATUS = s._i2c.regs INT_STATUS &&& (0xFF ^^^ (m % 256)) := by
        rw [hw1, hw]
        simp [INT_STATUS]
      by_cases h2 : armed s1 = true
      · rw [if_pos h2]
        have hw2 : (getIntControl w1cBus s1).1._i2c.regs = s1._i2c.regs := w1c_readRegs_regs _ s1
        generalize getIntControl w1cBus s1 = r2 at hw2 ⊢
        obtain ⟨s2, o2⟩ := r2
        cases o2 <;> dsimp only at hw2 ⊢ <;> rw [w1c_writeRegs_regs] <;> dsimp only <;>
          rw [hw2] <;> simp [INT_STATUS, INT_CONTR, Function.update] <;> exact hs1
      · rw [if_neg h2]
        exact hs1
    · rw [if_neg h1] at h
      simp at h

theorem and_clear (x a k r : Nat) (h : a &&& k = r) : (x &&& a) &&& k = x &&& r := by
  rw [Nat.and_assoc, h]

theorem mod_and_clear (x a k : Nat) (h : a &&& (255 &&& k) = 0) : ((x &&& a) % 256) &&& k = 0 := by
  have e : (x &&& a) % 256 = (x &&& a) &&& 255 := (Nat.and_pow_two_sub_one_eq_mod (x &&& a) 8).symm
  rw [e, Nat.and_assoc, Nat.and_assoc, h]
  simp

/-- On the write-one-to-clear register file, repeating a check that returned
true gives false, for each of the four status masks. -/
theorem w1c_checkInt_again (m : Nat) (hm : m = 8 ∨ m = 4 ∨ m = 2 ∨ m = 1)
    (armed : VCNL4020C RegFile → Bool) (s : VCNL4020C RegFile)
    (h : (checkInt w1cBus m armed s).2 = true) :
    (checkInt w1cBus m armed (checkInt w1cBus m armed s).1).2 = false := by
  have hs := w1c_checkInt_status m armed s h
  rw [Bool.eq_false_iff]
  intro h2
  obtain ⟨b, hb, hbit⟩ := (checkInt_result w1cBus m armed _).mp h2
  rw [w1c_readRegs_val] at hb
  have hb2 : (checkInt w1cBus m armed s).1._i2c.regs INT_STATUS % 256 = b := by
    simpa [INT_STATUS] using hb
  rw [hs] at hb2
  rw [← hb2] at hbit
  rcases hm with rfl | rfl | rfl | rfl
  · rw [mod_and_clear _ _ _ (by decide)] at hbit; cases hbit
  · rw [mod_and_clear _ _ _ (by decide)] at hbit; cases hbit
  · rw [mod_and_clear _ _ _ (by decide)] at hbit; cases hbit
  · rw [mod_and_clear _ _ _ (by decide)] at hbit; cases hbit

/-- Clearing the bits of one status mask leaves the bits of the other three. -/
theorem w1c_checkInt_frame (m : Nat) (hm : m = 8 ∨ m = 4 ∨ m = 2 ∨ m = 1)
    (armed : VCNL4020C RegFile → Bool) (s : VCNL4020C RegFile)
    (h : (checkInt w1cBus m armed s).2 = true) :
    (checkInt w1cBus m armed s).1._i2c.regs 0x8E &&& m = 0 ∧
    ∀ k ∈ [8, 4, 2, 1], k ≠ m →
      (checkInt w1cBus m armed s).1._i2c.regs 0x8E &&& k = s._i2c.regs 0x8E &&& k := by
  have hs : (checkInt w1cBus m armed s).1._i2c.regs 0x8E =
      s._i2c.regs 0x8E &&& (0xFF ^^^ (m % 256)) := w1c_checkInt_status m armed s h
  rw [hs]
  constructor
  · rcases hm with rfl | rfl | rfl | rfl <;>
      exact (and_clear _ _ _ 0 (by decide)).trans (Nat.and_zero _)
  · intro k hk hne
    simp only [List.mem_cons, List.mem_singleton, List.not_mem_nil, or_false] at hk
    rcases hm with rfl | rfl | rfl | rfl <;> rcases hk with rfl | rfl | rfl | rfl <;>
      first
        | exact absurd rfl hne
        | exact and_clear _ _ _ _ (by decide)

/-! ## C11: what an interrupt check returns -/

/-- C11. For every bus `W` and every driver state `s`, each of `checkBioInt`,
`checkAlsInt`, `checkThreshLowInt` and `checkThreshHighInt` (status masks 0x08,
0x04, 0x02, 0x01) returns true if and only if the read of the interrupt-status
register 0x8E succeeded, delivering a byte `b`, and `b` has the bit of the mask
set. The condition speaks of the status read only: whether the clearing write,
the interrupt-control read or the interrupt-control write that follow succeed
has no influence on the result. -/
theorem checkInt_result_iff_status_bit (W : TwoWire β) (s : VCNL4020C β) :
    ((checkBioInt W s).2 = true ↔
      ∃ b, (readRegs W 0x8E 1 s).2 = some [b] ∧ b &&& 0x08 = 0x08) ∧
    ((checkAlsInt W s).2 = true ↔
      ∃ b, (readRegs W 0x8E 1 s).2 = some [b] ∧ b &&& 0x04 = 0x04) ∧
    ((checkThreshLowInt W s).2 = true ↔
      ∃ b, (readRegs W 0x8E 1 s).2 = some [b] ∧ b &&& 0x02 = 0x02) ∧
    ((checkThreshHighInt W s).2 = true ↔
      ∃ b, (readRegs W 0x8E 1 s).2 = some [b] ∧ b &&& 0x01 = 0x01) :=
  ⟨by rw [checkBioInt_eq]; exact checkInt_result W _ _ s,
   by rw [checkAlsInt_eq]; exact checkInt_result W _ _ s,
   by rw [checkThreshLowInt_eq]; exact checkInt_result W _ _ s,
   by rw [checkThreshHighInt_eq]; exact checkInt_result W _ _ s⟩

/-- C11 at concrete inputs. On a bus that accepts one byte only (the register
address of the status read) and reads 0x21, the clearing write, the
interrupt-control read and the interrupt-control write all fail, and
`checkThreshHighInt` (bit 0 of 0x21 set) still returns true while
`checkAlsInt` (bit 2 clear) returns false; on a bus that accepts no byte the
status read fails and `checkThreshHighInt` returns false. -/
theorem checkInt_result_iff_status_bit_witness :
    (checkThreshHighInt countBus (armedDriver 1 true)).2 = true ∧
    (checkThreshHighInt countBus (armedDriver 1 true)).1.writes =
      [⟨0x8E, [0x01], false⟩, ⟨0x89, [0x01], false⟩] ∧
    (checkAlsInt countBus (armedDriver 1 true)).2 = false ∧
    (checkThreshHighInt countBus (armedDriver 0 true)).2 = false :=
  ⟨(checkInt_result_iff_status_bit countBus (armedDriver 1 true)).2.2.2.mpr
      ⟨0x21, by decide, by decide⟩,
   by decide, by decide, by decide⟩

/-! ## C12: an interrupt check consumes its own status bit -/

/-- C12. Each interrupt check consumes exactly its own status bit. For every
bus `W` and state `s`: when `checkBioInt`, `checkAlsInt`, `checkThreshLowInt` or
`checkThreshHighInt` returns true (its bit was found set), the writes it issued
to register 0x8E are exactly one, of the single byte 0x08, 0x04, 0x02 or 0x01
respectively. On the register file with a write-one-to-clear status register
and a succeeding bus (`w1cBus`), for every state `t`: after a check that
returned true the checked bit of register 0x8E is 0, each of the other three
status bits has the value it had before, and the same check called again at
once returns false. -/
theorem checkInt_consumes_own_status_bit (W : TwoWire β) (s : VCNL4020C β)
    (t : VCNL4020C RegFile) :
    ((checkBioInt W s).2 = true →
      writesTo 0x8E (issued (checkBioInt W s).1.writes s.writes) = [[0x08]]) ∧
    ((checkAlsInt W s).2 = true →
      writesTo 0x8E (issued (checkAlsInt W s).1.writes s.writes) = [[0x04]]) ∧
    ((checkThreshLowInt W s).2 = true →
      writesTo 0x8E (issued (checkThreshLowInt W s).1.writes s.writes) = [[0x02]]) ∧
    ((checkThreshHighInt W s).2 = true →
      writesTo 0x8E (issued (checkThreshHighInt W s).1.writes s.writes) = [[0x01]]) ∧
    ((checkBioInt w1cBus t).2 = true →
      (checkBioInt w1cBus t).1._i2c.regs 0x8E &&& 0x08 = 0 ∧
      (∀ k ∈ [8, 4, 2, 1], k ≠ 0x08 →
        (checkBioInt w1cBus t).1._i2c.regs 0x8E &&& k = t._i2c.regs 0x8E &&& k) ∧
      (checkBioInt w1cBus (checkBioInt w1cBus t).1).2 = false) ∧
    ((checkAlsInt w1cBus t).2 = true →
      (checkAlsInt w1cBus t).1._i2c.regs 0x8E &&& 0x04 = 0 ∧
      (∀ k ∈ [8, 4, 2, 1], k ≠ 0x04 →
        (checkAlsInt w1cBus t).1._i2c.regs 0x8E &&& k = t._i2c.regs 0x8E &&& k) ∧
      (checkAlsInt w1cBus (checkAlsInt w1cBus t).1).2 = false) ∧
    ((checkThreshLowInt w1cBus t).2 = true →
      (checkThreshLowInt w1cBus t).1._i2c.regs 0x8E &&& 0x02 = 0 ∧
      (∀ k ∈ [8, 4, 2, 1], k ≠ 0x02 →
        (checkThreshLowInt w1cBus t).1._i2c.regs 0x8E &&& k = t._i2c.regs 0x8E &&& k) ∧
      (checkThreshLowInt w1cBus (checkThreshLowInt w1cBus t).1).2 = false) ∧
    ((checkThreshHighInt w1cBus t).2 = true →
      (checkThreshHighInt w1cBus t).1._i2c.regs 0x8E &&& 0x01 = 0 ∧
      (∀ k ∈ [8, 4, 2, 1], k ≠ 0x01 →
        (checkThreshHighInt w1cBus t).1._i2c.regs 0x8E &&& k = t._i2c.regs 0x8E &&& k) ∧
      (checkThreshHighInt w1cBus (checkThreshHighInt w1cBus t).1).2 = false) := by
  refine ⟨?_, ?_, ?_, ?_, ?_, ?_, ?_, ?_⟩
  · rw [checkBioInt_eq]; exact checkInt_status_writes W _ _ s
  · rw [checkAlsInt_eq]; exact checkInt_status_writes W _ _ s
  · rw [checkThreshLowInt_eq]; exact checkInt_status_writes W _ _ s
  · rw [checkThreshHighInt_eq]; exact checkInt_status_writes W _ _ s
  · simp only [checkBioInt_eq]
    intro h
    exact ⟨(w1c_checkInt_frame 8 (by simp) _ t h).1, (w1c_checkInt_frame 8 (by simp) _ t h).2,
      w1c_checkInt_again 8 (by simp) _ t h⟩
  · simp only [checkAlsInt_eq]
    intro h
    exact ⟨(w1c_checkInt_frame 4 (by simp) _ t h).1, (w1c_checkInt_frame 4 (by simp) _ t h).2,
      w1c_checkInt_again 4 (by simp) _ t h⟩
  · simp only [checkThreshLowInt_eq]
    intro h
    exact ⟨(w1c_checkInt_frame 2 (by simp) _ t h).1, (w1c_checkInt_frame 2 (by simp) _ t h).2,
      w1c_checkInt_again 2 (by simp) _ t h⟩
  · simp only [checkThreshHighInt_eq]
    intro h
    exact ⟨(w1c_checkInt_frame 1 (by simp) _ t h).1, (w1c_checkInt_frame 1 (by simp) _ t h).2,
      w1c_checkInt_again 1 (by simp) _ t h⟩

/-- C12 at concrete inputs: status register 0x0F (all four interrupts
asserted), control register 0x40, soft flags armed. `checkThreshLowInt`
returns true, writes 0x02 to register 0x8E and nothing else there, leaves 0x0D
in the status register, and returns false when called again; on the
byte-counting bus `checkThreshHighInt` issues the single status write 0x01. -/
theorem checkInt_consumes_own_status_bit_witness :
    writesTo 0x8E (issued (checkThreshHighInt countBus (armedDriver 1 true)).1.writes
      (armedDriver 1 true).writes) = [[0x01]] ∧
    (checkThreshLowInt w1cBus (armedDriver (RegFile.intRegs 0x0F 0x40) true)).1._i2c.regs 0x8E
      &&& 0x02 = 0 ∧
    (checkThreshLowInt w1cBus (armedDriver (RegFile.intRegs 0x0F 0x40) true)).1._i2c.regs 0x8E
      = 0x0D ∧
    (checkThreshLowInt w1cBus
      (checkThreshLowInt w1cBus (armedDriver (RegFile.intRegs 0x0F 0x40) true)).1).2 = false :=
  ⟨(checkInt_consumes_own_status_bit countBus (armedDriver 1 true)
      (armedDriver (RegFile.intRegs 0x0F 0x40) true)).2.2.2.1 (by decide),
   ((checkInt_consumes_own_status_bit countBus (armedDriver 1 true)
      (armedDriver (RegFile.intRegs 0x0F 0x40) true)).2.2.2.2.2.2.1 (by decide)).1,
   by decide,
   ((checkInt_consumes_own_status_bit countBus (armedDriver 1 true)
      (armedDriver (RegFile.intRegs 0x0F 0x40) true)).2.2.2.2.2.2.1 (by decide)).2.2⟩

/-! ## Measurement control -/

/-- When an interrupt is bound and the clearing write fails, `stopContinuous`
stops there. -/
theorem stopContinuous_abort (W : TwoWire β) (s : VCNL4020C β)
    (hb : s._sensorInt ≠ none ∧ s._intPin ≠ -1)
    (hf : (writeRegs W INT_STATUS [0] { s with regValue := 0 }).2 = false) :
    (stopContinuous W s).2 = false ∧
    (stopContinuous W s).1._intMeasurementBio = s._intMeasurementBio ∧
    (stopContinuous W s).1._intMeasurementALS = s._intMeasurementALS ∧
    (stopContinuous W s).1._intThreshold = s._intThreshold ∧
    issued (stopContinuous W s).1.writes s.writes = [⟨INT_STATUS, [0], false⟩] := by
  unfold stopContinuous
  dsimp only
  rw [if_pos hb]
  have hw := writeRegs_writes W INT_STATUS [0] { s with regValue := 0 }
  rw [hf] at hw
  simp only [hf, Bool.not_false, if_true]
  refine ⟨trivial, rfl, rfl, rfl, ?_⟩
  rw [hw]
  exact issued_append _ _

/-- The part of `stopContinuous` after the interrupt block. -/
theorem stopContinuous_idle (W : TwoWire β) (s : VCNL4020C β)
    (h : ¬ (s._sensorInt ≠ none ∧ s._intPin ≠ -1) ∨
      (writeRegs W INT_STATUS [0] { s with regValue := 0 }).2 = true) :
    (stopContinuous W s).1._intMeasurementBio = false ∧
    (stopContinuous W s).1._intMeasurementALS = false ∧
    (stopContinuous W s).1._intThreshold = false ∧
    (issued (stopContinuous W s).1.writes s.writes).getLast? =
      some ⟨CMD_REG, [0], (stopContinuous W s).2⟩ := by
  unfold stopContinuous
  dsimp only
  by_cases hb : s._sensorInt ≠ none ∧ s._intPin ≠ -1
  · have ht : (writeRegs W INT_STATUS [0] { s with regValue := 0 }).2 = true := by
      rcases h with h | h
      · exact absurd hb h
      · exact h
    rw [if_pos hb]
    have hw := writeRegs_writes W INT_STATUS [0] { s with regValue := 0 }
    generalize writeRegs W INT_STATUS [0] { s with regValue := 0 } = r at ht hw ⊢
    obtain ⟨s1, ok⟩ := r
    dsimp only at ht hw ⊢
    subst ht
    simp only [Bool.not_true, Bool.false_eq_true, if_false]
    refine ⟨rfl, rfl, rfl, ?_⟩
    rw [writeRegs_writes]
    dsimp only
    rw [hw, List.append_assoc, issued_append]
    simp
  · rw [if_neg hb]
    simp only [Bool.not_true, Bool.false_eq_true, if_false]
    refine ⟨rfl, rfl, rfl, ?_⟩
    rw [writeRegs_writes]
    dsimp only
    rw [issued_append]
    simp

/-! ## C13: `stopContinuous` -/

/-- C13, the claim as stated fails. A driver with a bound interrupt and the
bio and ambient-light flags set, on a bus that refuses every byte:
`stopContinuous` stops at the failed write to the interrupt-status register, so
it is not the case that the three soft flags are all false and a write of 0x00
to the command register 0x80 was issued. -/
theorem stopContinuous_always_idle_counterexample :
    (startedDriver._sensorInt ≠ none ∧ startedDriver._intPin ≠ -1) ∧
    ¬ ((stopContinuous countBus startedDriver).1._intMeasurementBio = false ∧
      (stopContinuous countBus startedDriver).1._intMeasurementALS = false ∧
      (stopContinuous countBus startedDriver).1._intThreshold = false ∧
      [0x00] ∈ writesTo 0x80
        (issued (stopContinuous countBus startedDriver).1.writes startedDriver.writes)) := by
  decide

/-- C13 as amended. For every bus `W` and every driver state `s`: if no
interrupt is bound (callback `NULL` or pin -1), or the write of 0x00 to the
interrupt-status register 0x8E succeeds, then after `stopContinuous` the three
soft flags are false and the last write issued is the byte 0x00 to the command
register 0x80, whose outcome is the return value. If an interrupt is bound and
that write to 0x8E fails, `stopContinuous` returns false, leaves the three
flags as they were, and issues no write to the command register. -/
theorem stopContinuous_idle_unless_clear_fails (W : TwoWire β) (s : VCNL4020C β) :
    ((¬ (s._sensorInt ≠ none ∧ s._intPin ≠ -1) ∨
        (writeRegs W 0x8E [0x00] { s with regValue := 0 }).2 = true) →
      (stopContinuous W s).1._intMeasurementBio = false ∧
      (stopContinuous W s).1._intMeasurementALS = false ∧
      (stopContinuous W s).1._intThreshold = false ∧
      (issued (stopContinuous W s).1.writes s.writes).getLast? =
        some ⟨0x80, [0x00], (stopContinuous W s).2⟩ ∧
      [0x00] ∈ writesTo 0x80 (issued (stopContinuous W s).1.writes s.writes)) ∧
    ((s._sensorInt ≠ none ∧ s._intPin ≠ -1) →
      (writeRegs W 0x8E [0x00] { s with regValue := 0 }).2 = false →
      (stopContinuous W s).2 = false ∧
      (stopContinuous W s).1._intMeasurementBio = s._intMeasurementBio ∧
      (stopContinuous W s).1._intMeasurementALS = s._intMeasurementALS ∧
      (stopContinuous W s).1._intThreshold = s._intThreshold ∧
      writesTo 0x80 (issued (stopContinuous W s).1.writes s.writes) = []) := by
  constructor
  · intro h
    obtain ⟨h1, h2, h3, h4⟩ := stopContinuous_idle W s h
    refine ⟨h1, h2, h3, h4, ?_⟩
    have hm := List.mem_of_getLast?_eq_some h4
    unfold writesTo
    rw [List.mem_map]
    exact ⟨_, List.mem_filter.mpr ⟨hm, by simp [CMD_REG]⟩, rfl⟩
  · intro hb hf
    obtain ⟨h1, h2, h3, h4, h5⟩ := stopContinuous_abort W s hb hf
    refine ⟨h1, h2, h3, h4, ?_⟩
    rw [h5]
    simp [writesTo, INT_STATUS]

/-- C13 as amended, at concrete inputs: with a bound interrupt on the
register-file bus the flags are cleared and 0x00 is written to 0x80; with a
bound interrupt on a bus that refuses every byte `stopContinuous` returns
false and the bio flag stays set. -/
theorem stopContinuous_idle_unless_clear_fails_witness :
    ((stopContinuous regFileBus (boundDriver (RegFile.single 0 0))).1._intMeasurementBio = false ∧
      [0x00] ∈ writesTo 0x80
        (issued (stopContinuous regFileBus (boundDriver (RegFile.single 0 0))).1.writes
          (boundDriver (RegFile.single 0 0)).writes)) ∧
    ((stopContinuous countBus startedDriver).2 = false ∧
      (stopContinuous countBus startedDriver).1._intMeasurementBio = true) :=
  ⟨⟨((stopContinuous_idle_unless_clear_fails regFileBus (boundDriver (RegFile.single 0 0))).1
        (Or.inr (by decide))).1,
    ((stopContinuous_idle_unless_clear_fails regFileBus (boundDriver (RegFile.single 0 0))).1
        (Or.inr (by decide))).2.2.2.2⟩,
   ⟨((stopContinuous_idle_unless_clear_fails countBus startedDriver).2
        (by decide) (by decide)).1,
    ((stopContinuous_idle_unless_clear_fails countBus startedDriver).2
        (by decide) (by decide)).2.1⟩⟩

/-- The interrupt-control byte that `startSingle` and `startContinuous`
assemble. -/
theorem armByte_bits (bio als th : Bool) :
    (((if bio then 0 ||| INT_BS_RDY_ENA else 0) ||| (if als then INT_ALS_RDY_ENA else 0)) |||
      (if th then INT_THRES_ENA else 0)) &&& 0x08 = (if bio then 0x08 else 0) ∧
    (((if bio then 0 ||| INT_BS_RDY_ENA else 0) ||| (if als then INT_ALS_RDY_ENA else 0)) |||
      (if th then INT_THRES_ENA else 0)) &&& 0x04 = (if als then 0x04 else 0) := by
  cases bio <;> cases als <;> cases th <;> decide

theorem setIntControl_eq_gen (W : TwoWire β) (s : VCNL4020C β) (bioEna alsEna thresEna : Bool)
    (thresSel thresCount : Nat) :
    setIntControl W bioEna alsEna thresEna thresSel thresCount s =
      writeRegs W INT_CONTR
        [((if bioEna then 0x08 else 0) ||| (if alsEna then 0x04 else 0) |||
          (if thresEna then 0x02 else 0) ||| (if thresSel = 0 then 0x00 else 0x01)) |||
          (if thresCount > INT_CNT_EXC_128 then INT_CNT_EXC_128 else thresCount)]
        { s with regValue :=
          ((if bioEna then 0x08 else 0) ||| (if alsEna then 0x04 else 0) |||
          (if thresEna then 0x02 else 0) ||| (if thresSel = 0 then 0x00 else 0x01)) |||
          (if thresCount > INT_CNT_EXC_128 then INT_CNT_EXC_128 else thresCount) } := by
  by_cases h : thresSel = 0
  · subst h
    cases bioEna <;> cases alsEna <;> cases thresEna <;>
      simp [setIntControl, INT_BS_RDY_ENA, INT_ALS_RDY_ENA, INT_THRES_ENA, INT_THRES_BIO,
        INT_THRES_ALS]
  · cases bioEna <;> cases alsEna <;> cases thresEna <;>
      simp [setIntControl, h, INT_BS_RDY_ENA, INT_ALS_RDY_ENA, INT_THRES_ENA, INT_THRES_BIO,
        INT_THRES_ALS]

theorem alsByte_bits (d a : Nat) (c : Bool) :
    (((if c then 0 ||| AUTO_COMP_ENA else 0) |||
        (if d > AMB_SENS_RATE_10 then AMB_SENS_RATE_10 else d)) |||
        (if a > AVG_CONV_128 then AVG_CONV_128 else a)).testBit 7 = false ∧
    (c = true →
      (((if c then 0 ||| AUTO_COMP_ENA else 0) |||
        (if d > AMB_SENS_RATE_10 then AMB_SENS_RATE_10 else d)) |||
        (if a > AVG_CONV_128 then AVG_CONV_128 else a)).testBit 3 = true) ∧
    ((d.testBit 3 = false ∨ 0x70 < d) →
      (((if c then 0 ||| AUTO_COMP_ENA else 0) |||
        (if d > AMB_SENS_RATE_10 then AMB_SENS_RATE_10 else d)) |||
        (if a > AVG_CONV_128 then AVG_CONV_128 else a)).testBit 3 = c) := by
  have hd : (if d > AMB_SENS_RATE_10 then AMB_SENS_RATE_10 else d) < 2 ^ 7 := by
    show (if d > 112 then 112 else d) < 128
    split_ifs <;> omega
  have ha : (if a > AVG_CONV_128 then AVG_CONV_128 else a) < 2 ^ 3 := by
    show (if a > 7 then 7 else a) < 8
    split_ifs <;> omega
  have ha7 : (if a > AVG_CONV_128 then AVG_CONV_128 else a) < 2 ^ 7 :=
    Nat.lt_trans ha (by decide)
  have hc7 : (if c then 0 ||| AUTO_COMP_ENA else 0).testBit 7 = false := by
    cases c <;> decide
  have hc3 : (if c then 0 ||| AUTO_COMP_ENA else 0).testBit 3 = c := by
    cases c <;> decide
  refine ⟨?_, ?_, ?_⟩
  · rw [Nat.testBit_or, Nat.testBit_or, hc7, Nat.testBit_lt_two_pow hd,
      Nat.testBit_lt_two_pow ha7]
    rfl
  · intro h
    rw [Nat.testBit_or, Nat.testBit_or, hc3, h]
    rfl
  · intro h
    have hd3 : (if d > AMB_SENS_RATE_10 then AMB_SENS_RATE_10 else d).testBit 3 = false := by
      by_cases hgt : d > AMB_SENS_RATE_10
      · rw [if_pos hgt]; decide
      · rw [if_neg hgt]
        rcases h with h | h
        · exact h
        · exact absurd h hgt
    rw [Nat.testBit_or, Nat.testBit_or, hc3, hd3, Nat.testBit_lt_two_pow ha]
    simp

theorem testBit_of_and_mask (x i : Nat) (h : x &&& 0x1F = 0) (hi : Nat.testBit 0x1F i = true) :
    x.testBit i = false := by
  have := congrArg (fun y => Nat.testBit y i) h
  simp only [Nat.testBit_and, hi, Bool.and_true, Nat.zero_testBit] at this
  exact this

theorem intBase_bits (bioEna alsEna thresEna : Bool) (thresSel : Nat) :
    ((if bioEna then 0x08 else 0) ||| (if alsEna then 0x04 else 0) |||
      (if thresEna then 0x02 else 0) ||| (if thresSel = 0 then 0x00 else 0x01)).testBit 4 = false ∧
    ((if bioEna then 0x08 else 0) ||| (if alsEna then 0x04 else 0) |||
      (if thresEna then 0x02 else 0) ||| (if thresSel = 0 then 0x00 else 0x01)).testBit 3 = bioEna ∧
    ((if bioEna then 0x08 else 0) ||| (if alsEna then 0x04 else 0) |||
      (if thresEna then 0x02 else 0) ||| (if thresSel = 0 then 0x00 else 0x01)).testBit 2 = alsEna ∧
    ((if bioEna then 0x08 else 0) ||| (if alsEna then 0x04 else 0) |||
      (if thresEna then 0x02 else 0) ||| (if thresSel = 0 then 0x00 else 0x01)).testBit 1 = thresEna ∧
    ((if bioEna then 0x08 else 0) ||| (if alsEna then 0x04 else 0) |||
      (if thresEna then 0x02 else 0) ||| (if thresSel = 0 then 0x00 else 0x01)).testBit 0 =
      decide (thresSel ≠ 0) := by
  by_cases h : thresSel = 0
  · subst h
    cases bioEna <;> cases alsEna <;> cases thresEna <;> decide
  · have hd : decide (thresSel ≠ 0) = true := decide_eq_true h
    rw [hd]
    simp only [if_neg h]
    cases bioEna <;> cases alsEna <;> cases thresEna <;> decide

/-! ## C16: the setters on arbitrary arguments -/

/-- C16, the claim as stated fails. `setAlsParam(0x08, 0, false)` writes 0x08 to
register 0x84: bit 3 is set although `offsetComp` is false.
`setIntControl(false, false, false, 0, 0x1F)` writes 0x1F to register 0x89: the
unused bit 4 is set, and so are bits 3, 2, 1 and 0 although the three enables
are false and `thresSel` is 0. Neither argument exceeds the maximum of its
clamp (0x70, 0xE0), so the code passes them on unchanged. -/
theorem setters_field_confinement_counterexample :
    (setAlsParam regFileBus 0x08 0 false (new (RegFile.single 0 0) VCNL4020C_ADDR)).1.writes =
      [⟨0x84, [0x08], true⟩] ∧
    ¬ (Nat.testBit 0x08 3 = false) ∧
    (setIntControl regFileBus false false false 0 0x1F
      (new (RegFile.single 0 0) VCNL4020C_ADDR)).1.writes = [⟨0x89, [0x1F], true⟩] ∧
    ¬ (Nat.testBit 0x1F 4 = false) ∧ ¬ (Nat.testBit 0x1F 3 = false) ∧
    ¬ (Nat.testBit 0x1F 0 = decide ((0 : Nat) ≠ 0)) := by
  decide

theorem clamp_eq_min (t k : Nat) : (if t > k then k else t) = min t k := by
  split_ifs <;> omega

/-- Every bit of the byte `setAlsParam` assembles that the claims speak of. -/
theorem alsByte_exact (d a : Nat) (c : Bool) :
    (((if c then 0 ||| AUTO_COMP_ENA else 0) |||
        (if d > AMB_SENS_RATE_10 then AMB_SENS_RATE_10 else d)) |||
        (if a > AVG_CONV_128 then AVG_CONV_128 else a)).testBit 3 =
      (c || (min d 0x70).testBit 3) := by
  have ha : (if a > AVG_CONV_128 then AVG_CONV_128 else a) < 2 ^ 3 := by
    show (if a > 7 then 7 else a) < 8
    split_ifs <;> omega
  have hc3 : (if c then 0 ||| AUTO_COMP_ENA else 0).testBit 3 = c := by
    cases c <;> decide
  have hd : (if d > AMB_SENS_RATE_10 then AMB_SENS_RATE_10 else d) = min d 0x70 :=
    clamp_eq_min d 0x70
  rw [Nat.testBit_or, Nat.testBit_or, hc3, hd, Nat.testBit_lt_two_pow ha]
  simp

/-- A bit of the clamped argument is clear when it is clear in the argument or
the argument exceeds the clamp `k`, whose bit is clear. -/
theorem clamp_testBit (t k i : Nat) (hk : k.testBit i = false)
    (h : t.testBit i = false ∨ k < t) : (min t k).testBit i = false := by
  rcases h with h | h
  · by_cases hle : t ≤ k
    · rw [Nat.min_eq_left hle]; exact h
    · rw [Nat.min_eq_right (by omega)]; exact hk
  · rw [Nat.min_eq_right (by omega)]; exact hk

/-- C16 as amended. The setters OR the clamped argument in without masking it,
so a bit of the byte written is the claimed value OR-ed with that bit of the
clamped argument. For every bus, driver state and all `dataRate`, `avgConv`,
`offsetComp` (in particular all 8-bit values): `setAlsParam` writes one byte to
register 0x84; its bit 7 is clear; its bit 3 is `offsetComp` OR bit 3 of
`min dataRate 0x70`, hence equal to `offsetComp` whenever `offsetComp` is true,
bit 3 of `dataRate` is clear, or `dataRate` exceeds 0x70. For all `bioEna`,
`alsEna`, `thresEna`, `thresSel`, `thresCount`: `setIntControl` writes one byte
to register 0x89; its bit 4 is bit 4 of `min thresCount 0xE0`, and its bits 3,
2, 1, 0 are `bioEna`, `alsEna`, `thresEna`, `thresSel != 0` OR-ed with the same
bit of `min thresCount 0xE0`. Hence, bit by bit: bit 4 is clear whenever bit 4
of `thresCount` is clear or `thresCount` exceeds 0xE0; and each of the bits 3,
2, 1, 0 has exactly the claimed value whenever that value is true, or that bit
of `thresCount` is clear, or `thresCount` exceeds 0xE0. -/
theorem setters_field_confinement (W : TwoWire β) (s : VCNL4020C β)
    (dataRate avgConv : Nat) (offsetComp bioEna alsEna thresEna : Bool)
    (thresSel thresCount : Nat) :
    (∃ byte,
      issued (setAlsParam W dataRate avgConv offsetComp s).1.writes s.writes =
        [⟨0x84, [byte], (setAlsParam W dataRate avgConv offsetComp s).2⟩] ∧
      byte.testBit 7 = false ∧
      byte.testBit 3 = (offsetComp || (min dataRate 0x70).testBit 3) ∧
      ((offsetComp = true ∨ dataRate.testBit 3 = false ∨ 0x70 < dataRate) →
        byte.testBit 3 = offsetComp)) ∧
    (∃ byte,
      issued (setIntControl W bioEna alsEna thresEna thresSel thresCount s).1.writes s.writes =
        [⟨0x89, [byte], (setIntControl W bioEna alsEna thresEna thresSel thresCount s).2⟩] ∧
      byte.testBit 4 = (min thresCount 0xE0).testBit 4 ∧
      byte.testBit 3 = (bioEna || (min thresCount 0xE0).testBit 3) ∧
      byte.testBit 2 = (alsEna || (min thresCount 0xE0).testBit 2) ∧
      byte.testBit 1 = (thresEna || (min thresCount 0xE0).testBit 1) ∧
      byte.testBit 0 = (decide (thresSel ≠ 0) || (min thresCount 0xE0).testBit 0) ∧
      ((thresCount.testBit 4 = false ∨ 0xE0 < thresCount) → byte.testBit 4 = false) ∧
      ((bioEna = true ∨ thresCount.testBit 3 = false ∨ 0xE0 < thresCount) →
        byte.testBit 3 = bioEna) ∧
      ((alsEna = true ∨ thresCount.testBit 2 = false ∨ 0xE0 < thresCount) →
        byte.testBit 2 = alsEna) ∧
      ((thresEna = true ∨ thresCount.testBit 1 = false ∨ 0xE0 < thresCount) →
        byte.testBit 1 = thresEna) ∧
      ((thresSel ≠ 0 ∨ thresCount.testBit 0 = false ∨ 0xE0 < thresCount) →
        byte.testBit 0 = decide (thresSel ≠ 0))) := by
  constructor
  · obtain ⟨h7, _, _⟩ := alsByte_bits dataRate avgConv offsetComp
    have h3 := alsByte_exact dataRate avgConv offsetComp
    refine ⟨_, ?_, h7, h3, ?_⟩
    · rw [setAlsParam_eq, writeRegs_writes, issued_append]
    · intro h
      rw [h3]
      rcases h with h | h
      · rw [h]; rfl
      · rw [clamp_testBit dataRate 0x70 3 (by decide) h]; simp
  · obtain ⟨b4, b3, b2, b1, b0⟩ := intBase_bits bioEna alsEna thresEna thresSel
    have hm : (if thresCount > INT_CNT_EXC_128 then INT_CNT_EXC_128 else thresCount) =
        min thresCount 0xE0 := clamp_eq_min thresCount 0xE0
    have e4 := Nat.testBit_or
      ((if bioEna then 0x08 else 0) ||| (if alsEna then 0x04 else 0) |||
        (if thresEna then 0x02 else 0) ||| (if thresSel = 0 then 0x00 else 0x01))
      (min thresCount 0xE0) 4
    have e3 := Nat.testBit_or
      ((if bioEna then 0x08 else 0) ||| (if alsEna then 0x04 else 0) |||
        (if thresEna then 0x02 else 0) ||| (if thresSel = 0 then 0x00 else 0x01))
      (min thresCount 0xE0) 3
    have e2 := Nat.testBit_or
      ((if bioEna then 0x08 else 0) ||| (if alsEna then 0x04 else 0) |||
        (if thresEna then 0x02 else 0) ||| (if thresSel = 0 then 0x00 else 0x01))
      (min thresCount 0xE0) 2
    have e1 := Nat.testBit_or
      ((if bioEna then 0x08 else 0) ||| (if alsEna then 0x04 else 0) |||
        (if thresEna then 0x02 else 0) ||| (if thresSel = 0 then 0x00 else 0x01))
      (min thresCount 0xE0) 1
    have e0 := Nat.testBit_or
      ((if bioEna then 0x08 else 0) ||| (if alsEna then 0x04 else 0) |||
        (if thresEna then 0x02 else 0) ||| (if thresSel = 0 then 0x00 else 0x01))
      (min thresCount 0xE0) 0
    rw [b4, Bool.false_or] at e4
    rw [b3] at e3
    rw [b2] at e2
    rw [b1] at e1
    rw [b0] at e0
    refine ⟨((if bioEna then 0x08 else 0) ||| (if alsEna then 0x04 else 0) |||
      (if thresEna then 0x02 else 0) ||| (if thresSel = 0 then 0x00 else 0x01)) |||
      min thresCount 0xE0, ?_, e4, e3, e2, e1, e0, ?_, ?_, ?_, ?_, ?_⟩
    · rw [setIntControl_eq_gen, writeRegs_writes, issued_append, hm]
    · intro h
      rw [e4, clamp_testBit thresCount 0xE0 4 (by decide) h]
    · intro h
      rw [e3]
      rcases h with h | h
      · rw [h]; rfl
      · rw [clamp_testBit thresCount 0xE0 3 (by decide) h]; simp
    · intro h
      rw [e2]
      rcases h with h | h
      · rw [h]; rfl
      · rw [clamp_testBit thresCount 0xE0 2 (by decide) h]; simp
    · intro h
      rw [e1]
      rcases h with h | h
      · rw [h]; rfl
      · rw [clamp_testBit thresCount 0xE0 1 (by decide) h]; simp
    · intro h
      rw [e0]
      rcases h with h | h
      · rw [decide_eq_true h]; rfl
      · rw [clamp_testBit thresCount 0xE0 0 (by decide) h]; simp

/-- C16 as amended, at concrete inputs: `setAlsParam(0xFF, 0xFF, false)` (both
arguments clamped) writes a byte with bits 7 and 3 clear;
`setIntControl(true, false, false, 0, 0x08)` writes 0x08, whose bits 4..0 all
have the claimed values although `thresCount` has a stray bit 3. -/
theorem setters_field_confinement_witness :
    (∃ byte,
      issued (setAlsParam regFileBus 0xFF 0xFF false
          (new (RegFile.single 0 0) VCNL4020C_ADDR)).1.writes
        (new (RegFile.single 0 0) VCNL4020C_ADDR).writes =
        [⟨0x84, [byte], (setAlsParam regFileBus 0xFF 0xFF false
          (new (RegFile.single 0 0) VCNL4020C_ADDR)).2⟩] ∧
      byte.testBit 7 = false ∧ byte.testBit 3 = false) ∧
    (∃ byte,
      issued (setIntControl regFileBus true false false 0 0x08
          (new (RegFile.single 0 0) VCNL4020C_ADDR)).1.writes
        (new (RegFile.single 0 0) VCNL4020C_ADDR).writes =
        [⟨0x89, [byte], (setIntControl regFileBus true false false 0 0x08
          (new (RegFile.single 0 0) VCNL4020C_ADDR)).2⟩] ∧
      byte.testBit 4 = false ∧ byte.testBit 3 = true ∧ byte.testBit 2 = false ∧
      byte.testBit 1 = false ∧ byte.testBit 0 = false) ∧
    (setIntControl regFileBus true false false 0 0x08
      (new (RegFile.single 0 0) VCNL4020C_ADDR)).1.writes = [⟨0x89, [0x08], true⟩] := by
  obtain ⟨b, hb, h7, _, h3⟩ :=
    (setters_field_confinement regFileBus (new (RegFile.single 0 0) VCNL4020C_ADDR)
      0xFF 0xFF false true false false 0 0x08).1
  obtain ⟨c, hc, _, _, _, _, _, x4, x3, x2, x1, x0⟩ :=
    (setters_field_confinement regFileBus (new (RegFile.single 0 0) VCNL4020C_ADDR)
      0xFF 0xFF false true false false 0 0x08).2
  exact ⟨⟨b, hb, h7, h3 (Or.inr (Or.inr (by decide)))⟩,
    ⟨c, hc, x4 (Or.inl (by decide)), x3 (Or.inl rfl), x2 (Or.inr (Or.inl (by decide))),
      x1 (Or.inr (Or.inl (by decide))), x0 (Or.inr (Or.inl (by decide)))⟩,
    by decide⟩

/-! ## C17: re-arming after an interrupt check

First the invariant of the driver: no member function assigns `_lowThresh` or
`_highThresh`, and `_intThreshold` is set only when both are non-zero, so
`ShadowsUnset` holds in every state the driver can be in. Then the writes of a
check to `INT_CONTR`, and the claim. -/

/-- The soft flags a check looks at are those of the state it was called in:
the status read and the clearing write leave them alone. -/
theorem afterClear_flags (W : TwoWire β) (m : Nat) (s : VCNL4020C β) :
    (afterClear W m s)._intMeasurementBio = s._intMeasurementBio ∧
    (afterClear W m s)._intMeasurementALS = s._intMeasurementALS ∧
    (afterClear W m s)._intThreshold = s._intThreshold := by
  unfold afterClear checkInterrupts readRegs writeRegs
  dsimp only
  split_ifs <;> exact ⟨rfl, rfl, rfl⟩

/-- The writes to `INT_CONTR` of a check: none when the flag it looks at is not
armed; when the check returns true, the flag is armed and the control read
gives `c`, one write, of `c ||| m`. -/
theorem checkInt_rearm (W : TwoWire β) (m : Nat) (armed : VCNL4020C β → Bool)
    (s : VCNL4020C β) :
    ((checkInt W m armed s).2 = true → armed (afterClear W m s) = true →
      ∀ c, (getIntControl W (afterClear W m s)).2 = some c →
        writesTo 0x89 (issued (checkInt W m armed s).1.writes s.writes) = [[c ||| m]]) ∧
    (armed (afterClear W m s) = false →
      writesTo 0x89 (issued (checkInt W m armed s).1.writes s.writes) = []) ∧
    ((checkInt W m armed s).2 = false →
      issued (checkInt W m armed s).1.writes s.writes = []) := by
  unfold afterClear checkInt
  have hw := checkInterrupts_writes W s
  generalize checkInterrupts W s = r at hw ⊢
  obtain ⟨s0, o⟩ := r
  cases o with
  | none =>
    dsimp only at hw ⊢
    rw [hw, issued_self]
    exact ⟨fun h => by simp at h, fun _ => rfl, fun _ => rfl⟩
  | some v =>
    dsimp only at hw ⊢
    by_cases h1 : v &&& m = m
    · rw [if_pos h1]
      have hw1 := writeRegs_writes W INT_STATUS [m] ({ s0 with regValue := m })
      generalize writeRegs W INT_STATUS [m] ({ s0 with regValue := m }) = r1 at hw1 ⊢
      obtain ⟨s1, ok1⟩ := r1
      dsimp only at hw1 ⊢
      by_cases h2 : armed s1 = true
      · rw [if_pos h2]
        have hw2 := getIntControl_writes W s1
        generalize getIntControl W s1 = r2 at hw2 ⊢
        obtain ⟨s2, o2⟩ := r2
        refine ⟨fun _ _ c hc => ?_, fun h => by simp [h2] at h, fun h => by simp at h⟩
        dsimp only at hc hw2 ⊢
        subst hc
        dsimp only at hw2 ⊢
        rw [writeRegs_writes]
        dsimp only
        rw [hw2, hw1, hw, List.append_assoc, issued_append]
        simp [writesTo, INT_STATUS, INT_CONTR]
      · rw [if_neg h2]
        refine ⟨fun _ h => absurd h h2, fun _ => ?_, fun h => by simp at h⟩
        dsimp only
        rw [hw1, hw, issued_append]
        simp [writesTo, INT_STATUS]
    · rw [if_neg h1]
      dsimp only
      rw [hw, issued_self]
      exact ⟨fun h => by simp at h, fun _ => rfl, fun _ => rfl⟩

/-- The armed branch of the two threshold checks, which no state the driver can
be in enters (`reachable_shadowsUnset`): in a state with `_intThreshold` set,
when the check returns true and the control read gives `c`,
`checkThreshLowInt` writes `c ||| INT_TH_LOW_RDY`, which is `c ||| INT_THRES_ENA`
since both masks are 0x02, and `checkThreshHighInt` writes
`c ||| INT_TH_HIGH_RDY`, that is `c` with bit 0 set, not `INT_THRES_ENA`. -/
theorem checkThresh_armed_branch (W : TwoWire β) (s : VCNL4020C β)
    (ha : s._intThreshold = true) :
    ((checkThreshLowInt W s).2 = true →
      ∀ c, (getIntControl W (afterClear W INT_TH_LOW_RDY s)).2 = some c →
        writesTo 0x89 (issued (checkThreshLowInt W s).1.writes s.writes) =
          [[c ||| INT_THRES_ENA]]) ∧
    ((checkThreshHighInt W s).2 = true →
      ∀ c, (getIntControl W (afterClear W INT_TH_HIGH_RDY s)).2 = some c →
        writesTo 0x89 (issued (checkThreshHighInt W s).1.writes s.writes) =
          [[c ||| INT_TH_HIGH_RDY]]) :=
  ⟨fun h c hc => (checkInt_rearm W INT_TH_LOW_RDY (fun t => t._intThreshold) s).1 h
      ((afterClear_flags W INT_TH_LOW_RDY s).2.2.trans ha) c hc,
   fun h c hc => (checkInt_rearm W INT_TH_HIGH_RDY (fun t => t._intThreshold) s).1 h
      ((afterClear_flags W INT_TH_HIGH_RDY s).2.2.trans ha) c hc⟩

/-- A sample of the armed branch of the threshold checks, in a state that is
not one the driver can be in: a fresh object with the three soft flags set by
hand (`armedDriver`), status register 0x01, control register 0x40. There
`checkThreshHighInt` returns true, the control read delivers 0x40 and the byte
written to register 0x89 is 0x41, that is 0x40 with bit 0 set and bit 1
(`INT_THRES_ENA`) clear. The other three checks, at the corresponding inputs,
write 0x48, 0x44 and 0x42. With the flag not armed no write to 0x89 is
issued. -/
theorem checkThreshHighInt_armed_sample :
    (checkThreshHighInt w1cBus (armedDriver (RegFile.intRegs 0x01 0x40) true)).2 = true ∧
    (getIntControl w1cBus (armedDriver (RegFile.intRegs 0x01 0x40) true)).2 = some 0x40 ∧
    writesTo 0x89 (checkThreshHighInt w1cBus
      (armedDriver (RegFile.intRegs 0x01 0x40) true)).1.writes = [[0x41]] ∧
    (0x41 : Nat) = 0x40 ||| INT_TH_HIGH_RDY ∧ (0x41 : Nat) ≠ 0x40 ||| INT_THRES_ENA ∧
    writesTo 0x89 (checkBioInt w1cBus
      (armedDriver (RegFile.intRegs 0x08 0x40) true)).1.writes = [[0x40 ||| INT_BS_RDY_ENA]] ∧
    writesTo 0x89 (checkAlsInt w1cBus
      (armedDriver (RegFile.intRegs 0x04 0x40) true)).1.writes = [[0x40 ||| INT_ALS_RDY_ENA]] ∧
    writesTo 0x89 (checkThreshLowInt w1cBus
      (armedDriver (RegFile.intRegs 0x02 0x40) true)).1.writes = [[0x40 ||| INT_THRES_ENA]] ∧
    writesTo 0x89 (checkThreshHighInt w1cBus
      (armedDriver (RegFile.intRegs 0x01 0x40) false)).1.writes = [] := by
  decide

/-! ## C18: threshold-exceed arming -/

/-- The two threshold setters leave the shadow fields `_lowThresh` and
`_highThresh` as they are. -/
theorem setThreshold_shadow (W : TwoWire β) (a : Nat) (s : VCNL4020C β) :
    (setThresholdLow W a s).1._lowThresh = s._lowThresh ∧
    (setThresholdLow W a s).1._highThresh = s._highThresh ∧
    (setThresholdHigh W a s).1._lowThresh = s._lowThresh ∧
    (setThresholdHigh W a s).1._highThresh = s._highThresh := by
  unfold setThresholdLow setThresholdHigh
  dsimp only
  refine ⟨?_, ?_, ?_, ?_⟩ <;> split_ifs <;> rfl

/-- C18, the code at the failing input. A fresh driver with a bound interrupt
on the register-file bus: `setThresholdLow(5)` and `setThresholdHigh(7)` both
succeed and the device holds the thresholds 5 and 7, but the shadow fields
`_lowThresh` and `_highThresh`, which the arming test reads, are still 0,
since no setter assigns them. `startSingle(true, false)` then writes 0x08 to
register 0x89 and `startContinuous(true, false)` writes 0x08 to 0x89 as well:
bit 1 (`INT_THRES_ENA`) is clear and `_intThreshold` stays false, although both
thresholds are non-zero. -/
theorem threshold_arming_ignores_setters :
    (setThresholdLow regFileBus 5 (boundDriver (RegFile.single 0 0))).2 = true ∧
    (setThresholdHigh regFileBus 7
      (setThresholdLow regFileBus 5 (boundDriver (RegFile.single 0 0))).1).2 = true ∧
    (getThresholds regFileBus (setThresholdHigh regFileBus 7
      (setThresholdLow regFileBus 5 (boundDriver (RegFile.single 0 0))).1).1).2 =
      { ok := true, thresholdHigh := some 7, thresholdLow := some 5 } ∧
    (setThresholdHigh regFileBus 7
      (setThresholdLow regFileBus 5 (boundDriver (RegFile.single 0 0))).1).1._lowThresh = 0 ∧
    (setThresholdHigh regFileBus 7
      (setThresholdLow regFileBus 5 (boundDriver (RegFile.single 0 0))).1).1._highThresh = 0 ∧
    writesTo 0x89 (startSingle regFileBus true false (setThresholdHigh regFileBus 7
      (setThresholdLow regFileBus 5 (boundDriver (RegFile.single 0 0))).1).1).1.writes
      = [[0x08]] ∧
    Nat.testBit 0x08 1 = false ∧
    (startSingle regFileBus true false (setThresholdHigh regFileBus 7
      (setThresholdLow regFileBus 5 (boundDriver (RegFile.single 0 0))).1).1).1._intThreshold
      = false ∧
    writesTo 0x89 (startContinuous regFileBus true false (setThresholdHigh regFileBus 7
      (setThresholdLow regFileBus 5 (boundDriver (RegFile.single 0 0))).1).1).1.writes
      = [[0x08]] ∧
    (startContinuous regFileBus true false (setThresholdHigh regFileBus 7
      (setThresholdLow regFileBus 5 (boundDriver (RegFile.single 0 0))).1).1).1._intThreshold
      = false := by
  decide

end
